import Mathlib

/-
Verification of the BasicWorkbook / IttyZip spreadsheet-archive library.

The definitions below are a shallow embedding of the C++ sources:
  * src/BasicWorkbook/BasicWorkbook.cpp  (cell/reference model, Sheet, Workbook)
  * src/IttyZip/IttyZip.h                (archive writer declarations)

Machine integers (uint32_t) are modelled as Nat with explicit reduction
modulo 2^32 wherever the C++ arithmetic can wrap.  Fallible operations
(C++ functions that throw) return Except String, carrying the exact
exception message of the source.  C++ std::set containers are modelled as
strictly sorted lists together with an insertion function that is a no-op
on an equivalent element, exactly like std::set::insert.
-/

namespace BasicWorkbook

/-- Worksheet row limit from BasicWorkbook.h (ECMA376 default). -/
def MAX_ROW : Nat := 1048576

/-- Worksheet column limit from BasicWorkbook.h (ECMA376 default). -/
def MAX_COL : Nat := 16384

/-- Modulus of C++ uint32_t arithmetic. -/
def U32 : Nat := 2 ^ 32

/-- Model of C isupper for the values fed to it here (ASCII execution charset). -/
def c_isupper (c : Char) : Bool := 65 ≤ c.toNat && c.toNat ≤ 90

/-- Model of C islower (ASCII). -/
def c_islower (c : Char) : Bool := 97 ≤ c.toNat && c.toNat ≤ 122

/-- Model of C toupper (ASCII). -/
def c_toupper (c : Char) : Char :=
  if c_islower c then Char.ofNat (c.toNat - 32) else c

/-- Model of C tolower (ASCII). -/
def c_tolower (c : Char) : Char :=
  if c_isupper c then Char.ofNat (c.toNat + 32) else c

/-- Model of C isalpha (ASCII). -/
def c_isalpha (c : Char) : Bool := c_isupper c || c_islower c

/-- Model of C isdigit (ASCII). -/
def c_isdigit (c : Char) : Bool := 48 ≤ c.toNat && c.toNat ≤ 57

/-- The loop body of column_to_integer: all characters but the last fold with
integer = 26*(integer + charvalue), the last character is added directly;
uint32_t wrap-around is made explicit.  The two error branches carry the
source's exception message. -/
def cti_go (acc : Nat) : List Char → Except String Nat
  | [] => Except.error "column_to_integer() received empty input string."
  | [c] =>
    let u := c_toupper c
    if c_isupper u then Except.ok ((acc + (u.toNat - 64)) % U32)
    else Except.error "column_to_integer() received non-alphabetic input character."
  | c :: rest =>
    let u := c_toupper c
    if c_isupper u then cti_go ((26 * (acc + (u.toNat - 64))) % U32) rest
    else Except.error "column_to_integer() received non-alphabetic input character."

/-- BasicWorkbook::column_to_integer from BasicWorkbook.cpp. -/
def column_to_integer (s : String) : Except String Nat :=
  match s.data with
  | [] => Except.error "column_to_integer() received empty input string."
  | cs =>
    match cti_go 0 cs with
    | Except.error e => Except.error e
    | Except.ok n =>
      if n > MAX_COL then
        Except.error "column_to_integer() received a too large column index."
      else Except.ok n

/-- One output character of integer_to_column: remainder 0 yields Z,
otherwise the letter with value rem (A = 1). -/
def digitChar (rem : Nat) : Char :=
  if rem = 0 then 'Z' else Char.ofNat (rem + 64)

/-- The while loop of integer_to_column, with explicit fuel (the loop variable
strictly decreases, so fuel = initial value always suffices).  Characters are
prepended in the source; here the recursive call builds the more significant
digits on the left. -/
def itc_go : Nat → Nat → List Char
  | _, 0 => []
  | 0, _ + 1 => []
  | fuel + 1, n + 1 => itc_go fuel (n / 26) ++ [digitChar ((n + 1) % 26)]

/-- BasicWorkbook::integer_to_column from BasicWorkbook.cpp. -/
def integer_to_column (i : Nat) : Except String String :=
  if i = 0 then Except.error "integer_to_column() received an input of 0."
  else if i > MAX_COL then
    Except.error "integer_to_column() received a too large column index."
  else Except.ok (String.mk (itc_go i i))

theorem itc_go_fuel : ∀ fuel fuel₂ n, n ≤ fuel → n ≤ fuel₂ →
    itc_go fuel n = itc_go fuel₂ n := by
  intro fuel
  induction fuel with
  | zero =>
    intro fuel₂ n h _
    interval_cases n
    cases fuel₂ <;> rfl
  | succ f ih =>
    intro fuel₂ n h h₂
    match n, fuel₂ with
    | 0, fuel₂ => cases fuel₂ <;> rfl
    | m + 1, 0 => omega
    | m + 1, f₂ + 1 =>
      show itc_go f (m / 26) ++ _ = itc_go f₂ (m / 26) ++ _
      have hd : m / 26 ≤ m := Nat.div_le_self m 26
      rw [ih f₂ (m / 26) (by omega) (by omega)]

theorem itc_go_succ (m : Nat) :
    itc_go (m + 1) (m + 1) = itc_go (m / 26) (m / 26) ++ [digitChar ((m + 1) % 26)] := by
  show itc_go m (m / 26) ++ _ = _
  rw [itc_go_fuel m (m / 26) (m / 26) (Nat.div_le_self m 26) (Nat.le_refl _)]

theorem itc_go_ne_nil (n : Nat) (h : 1 ≤ n) : itc_go n n ≠ [] := by
  match n, h with
  | m + 1, _ =>
    rw [itc_go_succ]
    simp

theorem digitChar_spec (rem : Nat) (h : rem < 26) :
    c_toupper (digitChar rem) = digitChar rem ∧
    c_isupper (digitChar rem) = true ∧
    (digitChar rem).toNat - 64 = (if rem = 0 then 26 else rem) := by
  interval_cases rem <;> exact ⟨rfl, rfl, rfl⟩

theorem cti_mod_mul (a : Nat) : (26 * (a % U32)) % U32 = (26 * a) % U32 := by
  conv_lhs => rw [Nat.mul_mod, Nat.mod_mod_of_dvd _ dvd_rfl, ← Nat.mul_mod]

theorem cti_go_append (xs : List Char) (c : Char) (acc : Nat) (hxs : xs ≠ []) :
    cti_go acc (xs ++ [c]) =
      match cti_go acc xs with
      | Except.ok n => cti_go ((26 * n) % U32) [c]
      | Except.error e => Except.error e := by
  induction xs generalizing acc with
  | nil => exact absurd rfl hxs
  | cons x xs ih =>
    cases xs with
    | nil =>
      by_cases hu : c_isupper (c_toupper x)
      · simp only [List.singleton_append, cti_go, hu, if_true, cti_mod_mul]
      · simp [List.singleton_append, cti_go, hu]
    | cons y ys =>
      by_cases hu : c_isupper (c_toupper x)
      · simp only [List.cons_append, cti_go, hu, if_true]
        exact ih _ (by simp)
      · simp [List.cons_append, cti_go, hu]

theorem cti_itc : ∀ n, 1 ≤ n → ∀ acc, ∃ K,
    cti_go acc (itc_go n n) = Except.ok ((K * acc + n) % U32) := by
  intro n
  induction n using Nat.strong_induction_on with
  | _ n ih =>
    intro hn acc
    obtain ⟨m, rfl⟩ : ∃ m, n = m + 1 := ⟨n - 1, by omega⟩
    rw [itc_go_succ]
    have hrem : (m + 1) % 26 < 26 := Nat.mod_lt _ (by omega)
    obtain ⟨hct, hcu, hval⟩ := digitChar_spec ((m + 1) % 26) hrem
    have hV26 : 26 * (m / 26) + ((digitChar ((m + 1) % 26)).toNat - 64) = m + 1 := by
      rw [hval]
      by_cases hz : (m + 1) % 26 = 0
      · rw [if_pos hz]; omega
      · rw [if_neg hz]; omega
    by_cases h0 : m / 26 = 0
    · refine ⟨1, ?_⟩
      rw [h0] at hV26 ⊢
      simp only [show itc_go 0 0 = ([] : List Char) from rfl, List.nil_append]
      simp only [cti_go, hct, hcu, if_true]
      congr 1
      simp only [U32] at *
      omega
    · have h1' : 1 ≤ m / 26 := by omega
      obtain ⟨K', hK'⟩ := ih (m / 26) (by omega) h1' acc
      refine ⟨26 * K', ?_⟩
      rw [cti_go_append _ _ _ (itc_go_ne_nil _ h1'), hK']
      dsimp only
      rw [cti_mod_mul]
      simp only [cti_go, hct, hcu, if_true]
      congr 1
      rw [Nat.mul_assoc]
      generalize K' * acc = x
      simp only [U32] at *
      omega

theorem integer_to_column_ok (i : Nat) (h1 : 1 ≤ i) (h2 : i ≤ MAX_COL) :
    integer_to_column i = Except.ok (String.mk (itc_go i i)) := by
  unfold integer_to_column
  rw [if_neg (by omega), if_neg (by simp only [MAX_COL] at *; omega)]

theorem column_to_integer_itc (i : Nat) (h1 : 1 ≤ i) (h2 : i ≤ MAX_COL) :
    column_to_integer (String.mk (itc_go i i)) = Except.ok i := by
  cases hL : itc_go i i with
  | nil => exact absurd hL (itc_go_ne_nil i h1)
  | cons a as =>
    obtain ⟨K, hK⟩ := cti_itc i h1 0
    rw [hL] at hK
    show column_to_integer (String.mk (a :: as)) = _
    unfold column_to_integer
    dsimp only
    rw [hK]
    have hsmall : i % U32 = i := Nat.mod_eq_of_lt (by simp only [U32, MAX_COL] at *; omega)
    dsimp only
    simp only [Nat.mul_zero, Nat.zero_add, hsmall]
    rw [if_neg (by simp only [MAX_COL] at *; omega)]

/-- C1: for every column index i in [1, 16384], integer_to_column succeeds and
column_to_integer inverts it, and the produced letter sequence is reproduced
when converting its decoded index back to letters (bijective base-26 encoding
round-trips in both directions). -/
theorem C1_column_roundtrip (i : Nat) (h1 : 1 ≤ i) (h2 : i ≤ 16384) :
    ∃ s, integer_to_column i = Except.ok s ∧ column_to_integer s = Except.ok i ∧
      ∀ j, column_to_integer s = Except.ok j → integer_to_column j = Except.ok s := by
  have h2' : i ≤ MAX_COL := h2
  refine ⟨String.mk (itc_go i i), integer_to_column_ok i h1 h2',
    column_to_integer_itc i h1 h2', ?_⟩
  intro j hj
  rw [column_to_integer_itc i h1 h2'] at hj
  injection hj with hj
  subst hj
  exact integer_to_column_ok i h1 h2'

/-- Witness for C1: the round-trip theorem applied at the concrete index 28 (= AB). -/
theorem C1_column_roundtrip_witness :
    (1 ≤ 28 ∧ 28 ≤ 16384) ∧
      (∃ s, integer_to_column 28 = Except.ok s ∧ column_to_integer s = Except.ok 28 ∧
        ∀ j, column_to_integer s = Except.ok j → integer_to_column j = Except.ok s) :=
  ⟨by decide, C1_column_roundtrip 28 (by decide) (by decide)⟩

/-- This type holds a cell reference as a pair of uint32_t numbers
(BasicWorkbook.h integerref_t). -/
structure integerref_t where
  row : Nat
  col : Nat
deriving DecidableEq, Repr

/-- Exception message shared by all failure paths of mixedref_to_integerref. -/
def MIXEDREF_ERR : String := "mixedref_to_integerref() received an invalid cell reference."

/-- The character-classification loop of mixedref_to_integerref: walks the
input recording whether an alphabetic and a decimal character have been seen
and the index of the first decimal character, failing on a letter after a
digit, a digit before any letter, or any other character. -/
def mixedref_scan : List Char → Nat → Bool → Bool → Nat → Except String (Bool × Bool × Nat)
  | [], _, fa, fd, rs => Except.ok (fa, fd, rs)
  | c :: rest, idx, fa, fd, rs =>
    if c_isalpha c then
      if fd then Except.error MIXEDREF_ERR
      else mixedref_scan rest (idx + 1) true fd rs
    else if c_isdigit c then
      if fa then mixedref_scan rest (idx + 1) fa true (if fd then rs else idx)
      else Except.error MIXEDREF_ERR
    else Except.error MIXEDREF_ERR

/-- Left-to-right decimal accumulation of a digit string (the value computed
by std::stoll on an all-digit input). -/
def digitsVal (acc : Nat) : List Char → Nat
  | [] => acc
  | c :: rest => digitsVal (10 * acc + (c.toNat - 48)) rest

/-- BasicWorkbook::mixedref_to_integerref from BasicWorkbook.cpp.  On the
scan-validated input the row substring consists solely of decimal digits, so
std::stoll either returns their value or throws out_of_range; the source
converts both the out_of_range catch and the subsequent row range check into
the same invalid-reference error, so they collapse into the single range test
below. -/
def mixedref_to_integerref (s : String) : Except String integerref_t :=
  match mixedref_scan s.data 0 false false 0 with
  | Except.error e => Except.error e
  | Except.ok (fa, fd, rs) =>
    if fa = false ∨ fd = false then Except.error MIXEDREF_ERR
    else
      match column_to_integer (String.mk (s.data.take rs)) with
      | Except.error e => Except.error e
      | Except.ok col =>
        let row := digitsVal 0 (s.data.drop rs)
        if row < 1 ∨ row > MAX_ROW then Except.error MIXEDREF_ERR
        else Except.ok ⟨row, col⟩

/-- The digit-production loop of std::to_string on an unsigned value, with
explicit fuel (the value strictly shrinks under division by 10). -/
def natToChars : Nat → Nat → List Char
  | _, 0 => []
  | 0, _ + 1 => []
  | fuel + 1, n + 1 => natToChars fuel ((n + 1) / 10) ++ [Char.ofNat ((n + 1) % 10 + 48)]

/-- std::to_string for unsigned values. -/
def natToString (n : Nat) : List Char :=
  if n = 0 then ['0'] else natToChars n n

/-- BasicWorkbook::integerref_to_mixedref from BasicWorkbook.cpp. -/
def integerref_to_mixedref (r : integerref_t) : Except String String :=
  if r.col < 1 ∨ r.col > MAX_COL ∨ r.row < 1 ∨ r.row > MAX_ROW then
    Except.error "integerref_to_mixedref() received an invalid cell reference."
  else
    match integer_to_column r.col with
    | Except.error e => Except.error e
    | Except.ok colstr => Except.ok (String.mk (colstr.data ++ natToString r.row))

theorem natToChars_fuel : ∀ fuel fuel₂ n, n ≤ fuel → n ≤ fuel₂ →
    natToChars fuel n = natToChars fuel₂ n := by
  intro fuel
  induction fuel with
  | zero =>
    intro fuel₂ n h _
    interval_cases n
    cases fuel₂ <;> rfl
  | succ f ih =>
    intro fuel₂ n h h₂
    match n, fuel₂ with
    | 0, fuel₂ => cases fuel₂ <;> rfl
    | m + 1, 0 => omega
    | m + 1, f₂ + 1 =>
      show natToChars f ((m + 1) / 10) ++ _ = natToChars f₂ ((m + 1) / 10) ++ _
      rw [ih f₂ ((m + 1) / 10) (by omega) (by omega)]

theorem natToChars_succ (m : Nat) :
    natToChars (m + 1) (m + 1) =
      natToChars ((m + 1) / 10) ((m + 1) / 10) ++ [Char.ofNat ((m + 1) % 10 + 48)] := by
  show natToChars m ((m + 1) / 10) ++ _ = _
  rw [natToChars_fuel m ((m + 1) / 10) ((m + 1) / 10) (by omega) (Nat.le_refl _)]

theorem natToChars_ne_nil (n : Nat) (h : 1 ≤ n) : natToChars n n ≠ [] := by
  obtain ⟨m, rfl⟩ : ∃ m, n = m + 1 := ⟨n - 1, by omega⟩
  rw [natToChars_succ]
  simp

theorem decChar_spec (dd : Nat) (h : dd < 10) :
    (Char.ofNat (dd + 48)).toNat - 48 = dd ∧
    c_isdigit (Char.ofNat (dd + 48)) = true ∧
    c_isalpha (Char.ofNat (dd + 48)) = false := by
  interval_cases dd <;> exact ⟨by decide, by decide, by decide⟩

theorem digitsVal_append (xs ys : List Char) (acc : Nat) :
    digitsVal acc (xs ++ ys) = digitsVal (digitsVal acc xs) ys := by
  induction xs generalizing acc with
  | nil => rfl
  | cons x xs ih => exact ih _

theorem digitsVal_ntc : ∀ n acc, ∃ K, digitsVal acc (natToChars n n) = K * acc + n := by
  intro n
  induction n using Nat.strong_induction_on with
  | _ n ih =>
    intro acc
    cases n with
    | zero =>
      refine ⟨1, ?_⟩
      rw [show natToChars 0 0 = [] from rfl]
      show acc = 1 * acc + 0
      omega
    | succ m =>
      rw [natToChars_succ]
      obtain ⟨hv, _, _⟩ := decChar_spec ((m + 1) % 10) (Nat.mod_lt _ (by omega))
      obtain ⟨K', hK'⟩ := ih ((m + 1) / 10) (by omega) acc
      refine ⟨10 * K', ?_⟩
      rw [digitsVal_append, hK']
      rw [show ∀ (b : Nat) (c : Char), digitsVal b [c] = 10 * b + (c.toNat - 48) from
        fun b c => rfl]
      rw [hv, Nat.mul_assoc]
      generalize K' * acc = x
      omega

theorem itc_go_chars : ∀ fuel n c, c ∈ itc_go fuel n →
    c_isalpha c = true ∧ c_isdigit c = false := by
  intro fuel
  induction fuel with
  | zero => intro n c h; cases n <;> simp [itc_go] at h
  | succ f ih =>
    intro n c h
    cases n with
    | zero => simp [itc_go] at h
    | succ m =>
      rw [show itc_go (f + 1) (m + 1) = itc_go f (m / 26) ++ [digitChar ((m + 1) % 26)] from rfl] at h
      rcases List.mem_append.mp h with h | h
      · exact ih _ _ h
      · have hc : c = digitChar ((m + 1) % 26) := by simpa using h
        subst hc
        have hlt : (m + 1) % 26 < 26 := Nat.mod_lt _ (by omega)
        revert hlt
        generalize (m + 1) % 26 = rem
        intro hlt
        interval_cases rem <;> exact ⟨by decide, by decide⟩

theorem ntc_chars : ∀ fuel n c, c ∈ natToChars fuel n → c_isdigit c = true := by
  intro fuel
  induction fuel with
  | zero => intro n c h; cases n <;> simp [natToChars] at h
  | succ f ih =>
    intro n c h
    cases n with
    | zero => simp [natToChars] at h
    | succ m =>
      rw [show natToChars (f + 1) (m + 1)
            = natToChars f ((m + 1) / 10) ++ [Char.ofNat ((m + 1) % 10 + 48)] from rfl] at h
      rcases List.mem_append.mp h with h | h
      · exact ih _ _ h
      · have hc : c = Char.ofNat ((m + 1) % 10 + 48) := by simpa using h
        subst hc
        exact (decChar_spec _ (Nat.mod_lt _ (by omega))).2.1

theorem mixedref_scan_alpha (ys : List Char) : ∀ (xs : List Char) (idx : Nat) (fa : Bool) (rs : Nat),
    (∀ c ∈ xs, c_isalpha c = true) →
    mixedref_scan (xs ++ ys) idx fa false rs =
      mixedref_scan ys (idx + xs.length) (fa || !xs.isEmpty) false rs := by
  intro xs
  induction xs with
  | nil => intro idx fa rs _; simp
  | cons x xs ih =>
    intro idx fa rs h
    have hx : c_isalpha x = true := h x (by simp)
    show mixedref_scan (x :: (xs ++ ys)) idx fa false rs = _
    rw [show mixedref_scan (x :: (xs ++ ys)) idx fa false rs
          = if c_isalpha x then (if false then Except.error MIXEDREF_ERR
              else mixedref_scan (xs ++ ys) (idx + 1) true false rs)
            else if c_isdigit x then
              (if fa then mixedref_scan (xs ++ ys) (idx + 1) fa true (if false then rs else idx)
               else Except.error MIXEDREF_ERR)
            else Except.error MIXEDREF_ERR from rfl]
    rw [if_pos hx, if_neg (by simp)]
    rw [ih (idx + 1) true rs (fun c hc => h c (by simp [hc]))]
    simp [Nat.add_assoc, Nat.add_comm 1 xs.length]

theorem mixedref_scan_digits (ys : List Char) : ∀ (idx rs : Nat),
    (∀ c ∈ ys, c_isdigit c = true) →
    mixedref_scan ys idx true true rs = Except.ok (true, true, rs) := by
  induction ys with
  | nil => intro idx rs _; rfl
  | cons y ys ih =>
    intro idx rs h
    have hy : c_isdigit y = true := h y (by simp)
    have hya : c_isalpha y = false := by
      simp only [c_isdigit, c_isalpha, c_isupper, c_islower, Bool.and_eq_true,
        Bool.or_eq_false_iff, Bool.and_eq_false_iff, decide_eq_true_eq,
        decide_eq_false_iff_not] at hy ⊢
      omega
    show mixedref_scan (y :: ys) idx true true rs = _
    rw [show mixedref_scan (y :: ys) idx true true rs
          = if c_isalpha y then Except.error MIXEDREF_ERR
            else if c_isdigit y then mixedref_scan ys (idx + 1) true true rs
            else Except.error MIXEDREF_ERR from rfl]
    rw [if_neg (by simp [hya]), if_pos hy]
    exact ih (idx + 1) rs (fun c hc => h c (by simp [hc]))

theorem take_len_append {α : Type} (xs ys : List α) : (xs ++ ys).take xs.length = xs := by
  induction xs with
  | nil => rfl
  | cons x xs ih => simpa using ih

theorem drop_len_append {α : Type} (xs ys : List α) : (xs ++ ys).drop xs.length = ys := by
  induction xs with
  | nil => rfl
  | cons x xs ih => simpa using ih

theorem digit_not_alpha (c : Char) (h : c_isdigit c = true) : c_isalpha c = false := by
  simp only [c_isdigit, c_isalpha, c_isupper, c_islower, Bool.and_eq_true, Bool.or_eq_false_iff,
    Bool.and_eq_false_iff, decide_eq_true_eq, decide_eq_false_iff_not] at h ⊢
  omega

theorem mixedref_scan_first_digit (ys : List Char) (y : Char) (idx rs : Nat)
    (hy : c_isdigit y = true) (hys : ∀ c ∈ ys, c_isdigit c = true) :
    mixedref_scan (y :: ys) idx true false rs = Except.ok (true, true, idx) := by
  have hya : c_isalpha y = false := digit_not_alpha y hy
  rw [show mixedref_scan (y :: ys) idx true false rs
        = if c_isalpha y then mixedref_scan ys (idx + 1) true false rs
          else if c_isdigit y then mixedref_scan ys (idx + 1) true true idx
          else Except.error MIXEDREF_ERR from rfl]
  rw [if_neg (by simp [hya]), if_pos hy]
  exact mixedref_scan_digits ys (idx + 1) idx hys

/-- C2: every in-bounds cell reference survives the round trip through the
mixed (letters + digits) textual form: integerref_to_mixedref succeeds and
mixedref_to_integerref maps its output back to the original reference. -/
theorem C2_reference_roundtrip (r : integerref_t) (h1 : 1 ≤ r.row) (h2 : r.row ≤ 1048576)
    (h3 : 1 ≤ r.col) (h4 : r.col ≤ 16384) :
    ∃ s, integerref_to_mixedref r = Except.ok s ∧ mixedref_to_integerref s = Except.ok r := by
  obtain ⟨row, col⟩ := r
  dsimp only at h1 h2 h3 h4
  have h4' : col ≤ MAX_COL := h4
  cases hL : itc_go col col with
  | nil => exact absurd hL (itc_go_ne_nil col h3)
  | cons a as =>
    have hrow1 : natToString row = natToChars row row := by
      unfold natToString
      rw [if_neg (by omega)]
    cases hN : natToChars row row with
    | nil => exact absurd hN (natToChars_ne_nil row h1)
    | cons b bs =>
      refine ⟨String.mk ((a :: as) ++ (b :: bs)), ?_, ?_⟩
      · unfold integerref_to_mixedref
        dsimp only
        rw [if_neg (by simp only [MAX_COL, MAX_ROW]; omega)]
        rw [integer_to_column_ok col h3 h4']
        dsimp only
        rw [hL, hrow1, hN]
      · unfold mixedref_to_integerref
        rw [show (String.mk ((a :: as) ++ (b :: bs))).data = (a :: as) ++ (b :: bs) from rfl]
        have halpha : ∀ c ∈ (a :: as), c_isalpha c = true :=
          fun c hc => (itc_go_chars col col c (hL ▸ hc)).1
        have hdig : ∀ c ∈ (b :: bs), c_isdigit c = true :=
          fun c hc => ntc_chars row row c (hN ▸ hc)
        rw [mixedref_scan_alpha (b :: bs) (a :: as) 0 false 0 halpha]
        simp only [List.isEmpty_cons, Bool.not_false, Bool.false_or, Nat.zero_add]
        rw [mixedref_scan_first_digit bs b (a :: as).length 0 (hdig b (by simp))
          (fun c hc => hdig c (by simp [hc]))]
        dsimp only
        rw [if_neg (by simp)]
        rw [take_len_append, drop_len_append]
        rw [← hL, column_to_integer_itc col h3 h4']
        dsimp only
        obtain ⟨K, hK⟩ := digitsVal_ntc row 0
        rw [hN] at hK
        simp only [Nat.mul_zero, Nat.zero_add] at hK
        rw [hK]
        rw [if_neg (by simp only [MAX_ROW]; omega)]

/-- Witness for C2: the reference round-trip theorem applied at row 11, column 34 (= AH11). -/
theorem C2_reference_roundtrip_witness :
    (1 ≤ (11 : Nat) ∧ (11 : Nat) ≤ 1048576 ∧ 1 ≤ (34 : Nat) ∧ (34 : Nat) ≤ 16384) ∧
      (∃ s, integerref_to_mixedref ⟨11, 34⟩ = Except.ok s ∧
        mixedref_to_integerref s = Except.ok ⟨11, 34⟩) :=
  ⟨by decide, C2_reference_roundtrip ⟨11, 34⟩ (by decide) (by decide) (by decide) (by decide)⟩

/-- BasicWorkbook.h CellType. -/
inductive CellType where
  | NUMBER
  | FORMULA
  | STRING
  | EMPTY
deriving DecidableEq, Repr

/-- BasicWorkbook.h HorizontalAlignment. -/
inductive HorizontalAlignment where
  | GENERAL
  | LEFT
  | CENTER
  | RIGHT
deriving DecidableEq, Repr

/-- BasicWorkbook.h VerticalAlignment. -/
inductive VerticalAlignment where
  | BOTTOM
  | CENTER
  | TOP
deriving DecidableEq, Repr

/-- BasicWorkbook.h cell_style_t.  The NumberFormat enum is carried as its
uint8_t code (GENERAL = 0, TEXT = 49, FIX0..PCT16 = 100..150); the cell adds
and the style catalog only compare styles for structural equality. -/
structure cell_style_t where
  num_format : Nat
  horiz_align : HorizontalAlignment
  vert_align : VerticalAlignment
  wrap_text : Bool
  bold : Bool
deriving DecidableEq, Repr

/-- BasicWorkbook.h generic_style. -/
def generic_style : cell_style_t :=
  ⟨0, HorizontalAlignment.GENERAL, VerticalAlignment.BOTTOM, false, false⟩

/-- BasicWorkbook.h generic_string_style. -/
def generic_string_style : cell_style_t :=
  ⟨49, HorizontalAlignment.GENERAL, VerticalAlignment.BOTTOM, false, false⟩

/-- BasicWorkbook.h cell_t.  The C++ double num_val is modelled as Option Rat:
number cells store some value, and the quiet_NaN marker written into all
other cell kinds is modelled as none (its numeric value is never read). -/
structure cell_t where
  integerref : integerref_t
  type : CellType
  style_index : Nat
  num_val : Option Rat
  str_fml_val : String
deriving DecidableEq, Repr

/-- BasicWorkbook.h merged_cell_t. -/
structure merged_cell_t where
  start_ref : integerref_t
  end_ref : integerref_t
deriving DecidableEq, Repr

/-- cell_sort_compare::operator() from BasicWorkbook.cpp: first by row, then
within a row by column. -/
def cell_sort_compare (a b : cell_t) : Bool :=
  decide (a.integerref.row < b.integerref.row ∨
    (a.integerref.row = b.integerref.row ∧ a.integerref.col < b.integerref.col))

/-- merged_cell_sort_compare::operator() from BasicWorkbook.cpp. -/
def merged_cell_sort_compare (a b : merged_cell_t) : Bool :=
  decide (a.start_ref.row < b.start_ref.row ∨
    (a.start_ref.row = b.start_ref.row ∧ a.start_ref.col < b.start_ref.col))

/-- column_widths_sort_compare::operator() from BasicWorkbook.cpp: purely by
column index. -/
def column_widths_sort_compare (a b : Nat × Rat) : Bool := decide (a.1 < b.1)

/-- row_heights_sort_compare::operator() from BasicWorkbook.cpp: purely by
row index. -/
def row_heights_sort_compare (a b : Nat × Rat) : Bool := decide (a.1 < b.1)

/-- std::less on uint32_t, the comparator of the used_columns set. -/
def nat_lt_compare (a b : Nat) : Bool := decide (a < b)

/-- std::set::insert on a strictly sorted list: returns the insert-happened
flag (insret.second in the source) and the resulting list; inserting an
element equivalent under the comparator to a present one is a no-op. -/
def set_insert {α : Type} (lt : α → α → Bool) (x : α) : List α → Bool × List α
  | [] => (true, [x])
  | y :: ys =>
    if lt x y then (true, x :: y :: ys)
    else if lt y x then
      let p := set_insert lt x ys
      (p.1, y :: p.2)
    else (false, y :: ys)

/-- BasicWorkbook.h Sheet data members (the workbook back-reference is split
out: operations that resolve styles take the style catalog alongside). -/
structure Sheet where
  name : String
  filename : String
  sheetId : Nat
  relId : String
  cells : List cell_t
  used_columns : List Nat
  merged_cells : List merged_cell_t
  column_widths : List (Nat × Rat)
  row_heights : List (Nat × Rat)
deriving DecidableEq, Repr

/-- The Sheet constructor: every container starts empty. -/
def Sheet.fresh (name filename : String) (sheetId : Nat) (relId : String) : Sheet :=
  ⟨name, filename, sheetId, relId, [], [], [], [], []⟩

/-- The state a cell add can touch: the owning Workbook's style catalog plus
the Sheet (mirrors the workbook reference held by every Sheet). -/
structure SheetEnv where
  styles : List cell_style_t
  sheet : Sheet
deriving DecidableEq, Repr

/-- Workbook::addStyle from BasicWorkbook.cpp: linear scan (std::find) over
the catalog; on a structural match return the existing index, otherwise
append and return the new index. -/
def addStyle (cell_styles : List cell_style_t) (cell_style : cell_style_t) :
    Nat × List cell_style_t :=
  match cell_styles.findIdx? (fun s => decide (s = cell_style)) with
  | some i => (i, cell_styles)
  | none => (cell_styles.length, cell_styles ++ [cell_style])

/-- Modelled from the spec: the length limits MAX_FORMULA_LEN,
MAX_STRING_LEN and MAX_STRING_LINE_BREAKS are declared in the current
BasicWorkbook.h, which is not under src/ (only older revisions of the header
are).  The spec records only that such limits exist (TooLongError family);
the concrete values below follow the target format's documented limits and
no claim depends on them. -/
def MAX_FORMULA_LEN : Nat := 8192

/-- Modelled from the spec: see MAX_FORMULA_LEN. -/
def MAX_STRING_LEN : Nat := 32767

/-- Modelled from the spec: see MAX_FORMULA_LEN. -/
def MAX_STRING_LINE_BREAKS : Nat := 253

/-- Column width bounds from BasicWorkbook.h. -/
def MIN_COL_WIDTH : Rat := 0

/-- Column width bounds from BasicWorkbook.h. -/
def MAX_COL_WIDTH : Rat := 255

/-- Modelled from the spec: the row height bounds are declared in the current
BasicWorkbook.h, which is not under src/; the values follow the target
format's documented limits and no claim depends on them. -/
def MIN_ROW_HEIGHT : Rat := 0

/-- Modelled from the spec: see MIN_ROW_HEIGHT. -/
def MAX_ROW_HEIGHT : Rat := 409

/-- Sheet::add_number_cell (integerref overload) from BasicWorkbook.cpp.
The style is resolved in the workbook catalog before the duplicate check,
exactly as in the source, so a duplicate failure still returns the grown
catalog. -/
def add_number_cell (env : SheetEnv) (integerref : integerref_t) (number : Rat)
    (cell_style : cell_style_t) : SheetEnv × Except String Unit :=
  if integerref.col < 1 ∨ integerref.col > MAX_COL ∨
      integerref.row < 1 ∨ integerref.row > MAX_ROW then
    (env, Except.error "add_number_cell() received an invalid cell reference.")
  else
    let sp := addStyle env.styles cell_style
    let cell : cell_t := ⟨integerref, CellType.NUMBER, sp.1, some number, ""⟩
    let ins := set_insert cell_sort_compare cell env.sheet.cells
    if ins.1 = false then
      ({env with styles := sp.2},
        Except.error "add_number_cell() encountered duplicate insertion of a cell at the same reference.")
    else
      ({styles := sp.2,
        sheet :=
          {env.sheet with
            cells := ins.2,
            used_columns :=
              (set_insert nat_lt_compare integerref.col env.sheet.used_columns).2}},
        Except.ok ())

/-- Sheet::add_formula_cell (integerref overload) from BasicWorkbook.cpp. -/
def add_formula_cell (env : SheetEnv) (integerref : integerref_t) (formula : String)
    (cell_style : cell_style_t) : SheetEnv × Except String Unit :=
  if integerref.col < 1 ∨ integerref.col > MAX_COL ∨
      integerref.row < 1 ∨ integerref.row > MAX_ROW then
    (env, Except.error "add_formula_cell() received an invalid cell reference.")
  else if formula.length > MAX_FORMULA_LEN then
    (env, Except.error "the formula supplied to add_formula_cell() is too long.")
  else
    let sp := addStyle env.styles cell_style
    let cell : cell_t := ⟨integerref, CellType.FORMULA, sp.1, none, formula⟩
    let ins := set_insert cell_sort_compare cell env.sheet.cells
    if ins.1 = false then
      ({env with styles := sp.2},
        Except.error "add_formula_cell() encountered duplicate insertion of a cell at the same reference.")
    else
      ({styles := sp.2,
        sheet :=
          {env.sheet with
            cells := ins.2,
            used_columns :=
              (set_insert nat_lt_compare integerref.col env.sheet.used_columns).2}},
        Except.ok ())

/-- Sheet::add_string_cell (integerref overload) from BasicWorkbook.cpp. -/
def add_string_cell (env : SheetEnv) (integerref : integerref_t) (value : String)
    (cell_style : cell_style_t) : SheetEnv × Except String Unit :=
  if integerref.col < 1 ∨ integerref.col > MAX_COL ∨
      integerref.row < 1 ∨ integerref.row > MAX_ROW then
    (env, Except.error "add_string_cell() received an invalid cell reference.")
  else if value.length > MAX_STRING_LEN then
    (env, Except.error "the string value supplied to add_string_cell() is too long.")
  else if value.data.count '\n' > MAX_STRING_LINE_BREAKS then
    (env, Except.error "the string value supplied to add_string_cell() contains too many line breaks.")
  else
    let sp := addStyle env.styles cell_style
    let cell : cell_t := ⟨integerref, CellType.STRING, sp.1, none, value⟩
    let ins := set_insert cell_sort_compare cell env.sheet.cells
    if ins.1 = false then
      ({env with styles := sp.2},
        Except.error "add_string_cell() encountered duplicate insertion of a cell at the same reference.")
    else
      ({styles := sp.2,
        sheet :=
          {env.sheet with
            cells := ins.2,
            used_columns :=
              (set_insert nat_lt_compare integerref.col env.sheet.used_columns).2}},
        Except.ok ())

/-- Sheet::add_empty_cell from BasicWorkbook.cpp (private; used for the
non-anchor references of a merged cell). -/
def add_empty_cell (env : SheetEnv) (integerref : integerref_t)
    (cell_style : cell_style_t) : SheetEnv × Except String Unit :=
  if integerref.col < 1 ∨ integerref.col > MAX_COL ∨
      integerref.row < 1 ∨ integerref.row > MAX_ROW then
    (env, Except.error "add_empty_cell() received an invalid cell reference.")
  else
    let sp := addStyle env.styles cell_style
    let cell : cell_t := ⟨integerref, CellType.EMPTY, sp.1, none, ""⟩
    let ins := set_insert cell_sort_compare cell env.sheet.cells
    if ins.1 = false then
      ({env with styles := sp.2},
        Except.error "add_empty_cell() encountered duplicate insertion of a cell at the same reference.")
    else
      ({styles := sp.2,
        sheet :=
          {env.sheet with
            cells := ins.2,
            used_columns :=
              (set_insert nat_lt_compare integerref.col env.sheet.used_columns).2}},
        Except.ok ())

/-- The three public cell payload kinds of the addXCell family. -/
inductive AddKind where
  | number : Rat → AddKind
  | formula : String → AddKind
  | strval : String → AddKind

/-- Uniform dispatcher over the three public single-cell adds (the overloads
share their validation and insertion shape; this routes one payload to the
corresponding Sheet method). -/
def add_cell (env : SheetEnv) (integerref : integerref_t) (k : AddKind)
    (cell_style : cell_style_t) : SheetEnv × Except String Unit :=
  match k with
  | AddKind.number v => add_number_cell env integerref v cell_style
  | AddKind.formula f => add_formula_cell env integerref f cell_style
  | AddKind.strval v => add_string_cell env integerref v cell_style

/-- The payload passes its kind-specific limit checks. -/
def payload_ok : AddKind → Prop
  | AddKind.number _ => True
  | AddKind.formula f => f.length ≤ MAX_FORMULA_LEN
  | AddKind.strval v => v.length ≤ MAX_STRING_LEN ∧ v.data.count '\n' ≤ MAX_STRING_LINE_BREAKS

/-- The duplicate-insertion exception message of each add overload. -/
def dup_mesg : AddKind → String
  | AddKind.number _ =>
    "add_number_cell() encountered duplicate insertion of a cell at the same reference."
  | AddKind.formula _ =>
    "add_formula_cell() encountered duplicate insertion of a cell at the same reference."
  | AddKind.strval _ =>
    "add_string_cell() encountered duplicate insertion of a cell at the same reference."

/-- The double loop of the add_merged_X_cell bodies: every reference of the
rectangle bounded by start_ref and end_ref in row-major order, skipping the
upper-left anchor. -/
def merge_refs (start_ref end_ref : integerref_t) : List integerref_t :=
  (((List.range (end_ref.row + 1 - start_ref.row)).map (fun i => start_ref.row + i)).bind
    (fun r => ((List.range (end_ref.col + 1 - start_ref.col)).map
      (fun j => start_ref.col + j)).map (fun c => (⟨r, c⟩ : integerref_t)))).filter
    (fun x => decide (¬(x.row = start_ref.row ∧ x.col = start_ref.col)))

/-- Sequential add_empty_cell over a list of references, stopping at the
first exception exactly as the C++ loop would. -/
def add_empty_cells (env : SheetEnv) : List integerref_t → cell_style_t →
    SheetEnv × Except String Unit
  | [], _ => (env, Except.ok ())
  | r :: rs, st =>
    match add_empty_cell env r st with
    | (env₂, Except.ok _) => add_empty_cells env₂ rs st
    | (env₂, Except.error e) => (env₂, Except.error e)

/-- Sheet::add_merged_string_cell (integerref overload) from BasicWorkbook.cpp. -/
def add_merged_string_cell (env : SheetEnv) (start_ref end_ref : integerref_t)
    (value : String) (cell_style : cell_style_t) : SheetEnv × Except String Unit :=
  if start_ref.col < 1 ∨ start_ref.col > MAX_COL ∨
      start_ref.row < 1 ∨ start_ref.row > MAX_ROW then
    (env, Except.error "add_merged_string_cell() received an invalid starting cell reference.")
  else if end_ref.col < 1 ∨ end_ref.col > MAX_COL ∨
      end_ref.row < 1 ∨ end_ref.row > MAX_ROW then
    (env, Except.error "add_merged_string_cell() received an invalid ending cell reference.")
  else if start_ref.col > end_ref.col ∨ start_ref.row > end_ref.row ∨
      (start_ref.col = end_ref.col ∧ start_ref.row = end_ref.row) then
    (env, Except.error "add_merged_string_cell() received an ending cell reference equal or prior to its starting cell reference.")
  else
    match add_string_cell env start_ref value cell_style with
    | (env₂, Except.error e) => (env₂, Except.error e)
    | (env₂, Except.ok _) =>
      match add_empty_cells env₂ (merge_refs start_ref end_ref) cell_style with
      | (env₃, Except.error e) => (env₃, Except.error e)
      | (env₃, Except.ok _) =>
        ({env₃ with
          sheet :=
            {env₃.sheet with
              merged_cells :=
                (set_insert merged_cell_sort_compare ⟨start_ref, end_ref⟩
                  env₃.sheet.merged_cells).2}},
          Except.ok ())

/-- Sheet::add_merged_formula_cell (integerref overload) from BasicWorkbook.cpp. -/
def add_merged_formula_cell (env : SheetEnv) (start_ref end_ref : integerref_t)
    (formula : String) (cell_style : cell_style_t) : SheetEnv × Except String Unit :=
  if start_ref.col < 1 ∨ start_ref.col > MAX_COL ∨
      start_ref.row < 1 ∨ start_ref.row > MAX_ROW then
    (env, Except.error "add_merged_formula_cell() received an invalid starting cell reference.")
  else if end_ref.col < 1 ∨ end_ref.col > MAX_COL ∨
      end_ref.row < 1 ∨ end_ref.row > MAX_ROW then
    (env, Except.error "add_merged_formula_cell() received an invalid ending cell reference.")
  else if start_ref.col > end_ref.col ∨ start_ref.row > end_ref.row ∨
      (start_ref.col = end_ref.col ∧ start_ref.row = end_ref.row) then
    (env, Except.error "add_merged_formula_cell() received an ending cell reference equal or prior to its starting cell reference.")
  else
    match add_formula_cell env start_ref formula cell_style with
    | (env₂, Except.error e) => (env₂, Except.error e)
    | (env₂, Except.ok _) =>
      match add_empty_cells env₂ (merge_refs start_ref end_ref) cell_style with
      | (env₃, Except.error e) => (env₃, Except.error e)
      | (env₃, Except.ok _) =>
        ({env₃ with
          sheet :=
            {env₃.sheet with
              merged_cells :=
                (set_insert merged_cell_sort_compare ⟨start_ref, end_ref⟩
                  env₃.sheet.merged_cells).2}},
          Except.ok ())

/-- Sheet::add_merged_number_cell (integerref overload) from BasicWorkbook.cpp. -/
def add_merged_number_cell (env : SheetEnv) (start_ref end_ref : integerref_t)
    (number : Rat) (cell_style : cell_style_t) : SheetEnv × Except String Unit :=
  if start_ref.col < 1 ∨ start_ref.col > MAX_COL ∨
      start_ref.row < 1 ∨ start_ref.row > MAX_ROW then
    (env, Except.error "add_merged_number_cell() received an invalid starting cell reference.")
  else if end_ref.col < 1 ∨ end_ref.col > MAX_COL ∨
      end_ref.row < 1 ∨ end_ref.row > MAX_ROW then
    (env, Except.error "add_merged_number_cell() received an invalid ending cell reference.")
  else if start_ref.col > end_ref.col ∨ start_ref.row > end_ref.row ∨
      (start_ref.col = end_ref.col ∧ start_ref.row = end_ref.row) then
    (env, Except.error "add_merged_number_cell() received an ending cell reference equal or prior to its starting cell reference.")
  else
    match add_number_cell env start_ref number cell_style with
    | (env₂, Except.error e) => (env₂, Except.error e)
    | (env₂, Except.ok _) =>
      match add_empty_cells env₂ (merge_refs start_ref end_ref) cell_style with
      | (env₃, Except.error e) => (env₃, Except.error e)
      | (env₃, Except.ok _) =>
        ({env₃ with
          sheet :=
            {env₃.sheet with
              merged_cells :=
                (set_insert merged_cell_sort_compare ⟨start_ref, end_ref⟩
                  env₃.sheet.merged_cells).2}},
          Except.ok ())

/-- Sheet::set_column_width from BasicWorkbook.cpp: range-checks then
std::set::insert keyed purely on the column index (a no-op when the index is
already present). -/
def set_column_width (sh : Sheet) (col : Nat) (width : Rat) : Sheet × Except String Unit :=
  if width < MIN_COL_WIDTH ∨ width > MAX_COL_WIDTH then
    (sh, Except.error "set_column_width() received invalid width argument.")
  else if col < 1 ∨ col > MAX_COL then
    (sh, Except.error "set_column_width() received invalid col argument.")
  else
    ({sh with
      column_widths := (set_insert column_widths_sort_compare (col, width) sh.column_widths).2},
      Except.ok ())

/-- Sheet::set_row_height from BasicWorkbook.cpp. -/
def set_row_height (sh : Sheet) (row : Nat) (height : Rat) : Sheet × Except String Unit :=
  if height < MIN_ROW_HEIGHT ∨ height > MAX_ROW_HEIGHT then
    (sh, Except.error "set_row_height() received invalid height argument.")
  else if row < 1 ∨ row > MAX_ROW then
    (sh, Except.error "set_row_height() received invalid row argument.")
  else
    ({sh with
      row_heights := (set_insert row_heights_sort_compare (row, height) sh.row_heights).2},
      Except.ok ())

/-- The strict order implemented by cell_sort_compare, as a proposition. -/
def cellLtP (a b : cell_t) : Prop :=
  a.integerref.row < b.integerref.row ∨
    (a.integerref.row = b.integerref.row ∧ a.integerref.col < b.integerref.col)

theorem cell_sort_compare_eq_true {a b : cell_t} :
    cell_sort_compare a b = true ↔ cellLtP a b := by
  simp [cell_sort_compare, cellLtP]

theorem cellLtP_trans {a b c : cell_t} (h1 : cellLtP a b) (h2 : cellLtP b c) : cellLtP a c := by
  unfold cellLtP at *
  omega

theorem cellLtP_ne {a b : cell_t} (h : cellLtP a b) : a.integerref ≠ b.integerref := by
  intro he
  unfold cellLtP at h
  rw [he] at h
  omega

theorem cellLtP_total {a b : cell_t} (h1 : ¬cellLtP a b) (h2 : ¬cellLtP b a) :
    a.integerref = b.integerref := by
  unfold cellLtP at h1 h2
  rcases ha : a.integerref with ⟨r1, c1⟩
  rcases hb : b.integerref with ⟨r2, c2⟩
  rw [ha, hb] at h1 h2
  simp only [integerref_t.mk.injEq]
  dsimp only at h1 h2
  omega

theorem set_insert_cells_subset (c : cell_t) : ∀ (l : List cell_t) (x : cell_t),
    x ∈ (set_insert cell_sort_compare c l).2 → x = c ∨ x ∈ l := by
  intro l
  induction l with
  | nil =>
    intro x hx
    simp only [set_insert, List.mem_singleton] at hx
    exact Or.inl hx
  | cons y ys ih =>
    intro x hx
    by_cases h1 : cell_sort_compare c y = true
    · simp only [set_insert, h1, if_true, List.mem_cons] at hx
      rcases hx with hx | hx | hx
      · exact Or.inl hx
      · exact Or.inr (by simp [hx])
      · exact Or.inr (by simp [hx])
    · by_cases h2 : cell_sort_compare y c = true
      · simp only [set_insert, h1, h2, if_true, Bool.false_eq_true, if_false,
          List.mem_cons] at hx
        rcases hx with hx | hx
        · exact Or.inr (by simp [hx])
        · rcases ih x hx with hx | hx
          · exact Or.inl hx
          · exact Or.inr (by simp [hx])
      · simp only [set_insert, h1, h2, Bool.false_eq_true, if_false, List.mem_cons] at hx
        exact Or.inr (List.mem_cons.mpr hx)

theorem set_insert_cells_pairwise (c : cell_t) : ∀ (l : List cell_t),
    l.Pairwise cellLtP → ((set_insert cell_sort_compare c l).2).Pairwise cellLtP := by
  intro l
  induction l with
  | nil =>
    intro _
    simp [set_insert]
  | cons y ys ih =>
    intro hs
    rcases List.pairwise_cons.mp hs with ⟨hy, hys⟩
    by_cases h1 : cell_sort_compare c y = true
    · simp only [set_insert, h1, if_true]
      refine List.pairwise_cons.mpr ⟨?_, hs⟩
      intro x hx
      rcases List.mem_cons.mp hx with hx | hx
      · exact hx ▸ cell_sort_compare_eq_true.mp h1
      · exact cellLtP_trans (cell_sort_compare_eq_true.mp h1) (hy x hx)
    · by_cases h2 : cell_sort_compare y c = true
      · simp only [set_insert, h1, h2, if_true, Bool.false_eq_true, if_false]
        refine List.pairwise_cons.mpr ⟨?_, ih hys⟩
        intro x hx
        rcases set_insert_cells_subset c ys x hx with hx | hx
        · exact hx ▸ cell_sort_compare_eq_true.mp h2
        · exact hy x hx
      · simp only [set_insert, h1, h2, Bool.false_eq_true, if_false]
        exact hs

theorem set_insert_cells_mem (c : cell_t) : ∀ (l : List cell_t),
    (set_insert cell_sort_compare c l).1 = true → c ∈ (set_insert cell_sort_compare c l).2 := by
  intro l
  induction l with
  | nil =>
    intro _
    simp [set_insert]
  | cons y ys ih =>
    intro hf
    by_cases h1 : cell_sort_compare c y = true
    · simp [set_insert, h1]
    · by_cases h2 : cell_sort_compare y c = true
      · simp only [set_insert, h1, h2, if_true, Bool.false_eq_true, if_false] at hf ⊢
        exact List.mem_cons.mpr (Or.inr (ih hf))
      · simp only [set_insert, h1, h2, Bool.false_eq_true, if_false] at hf

theorem set_insert_cells_flag (c : cell_t) : ∀ (l : List cell_t), l.Pairwise cellLtP →
    ((set_insert cell_sort_compare c l).1 = false ↔
      ∃ d ∈ l, d.integerref = c.integerref) := by
  intro l
  induction l with
  | nil =>
    intro _
    simp [set_insert]
  | cons y ys ih =>
    intro hs
    rcases List.pairwise_cons.mp hs with ⟨hy, hys⟩
    by_cases h1 : cell_sort_compare c y = true
    · simp only [set_insert, h1, if_true]
      constructor
      · intro hfalse
        exact absurd hfalse (by simp)
      · rintro ⟨d, hd, hde⟩
        rcases List.mem_cons.mp hd with hd | hd
        · exact absurd hde.symm (cellLtP_ne (hd ▸ cell_sort_compare_eq_true.mp h1))
        · exact absurd hde.symm
            (cellLtP_ne (cellLtP_trans (cell_sort_compare_eq_true.mp h1) (hy d hd)))
    · by_cases h2 : cell_sort_compare y c = true
      · simp only [set_insert, h1, h2, if_true, Bool.false_eq_true, if_false]
        rw [ih hys]
        constructor
        · rintro ⟨d, hd, hde⟩
          exact ⟨d, List.mem_cons.mpr (Or.inr hd), hde⟩
        · rintro ⟨d, hd, hde⟩
          rcases List.mem_cons.mp hd with hd | hd
          · rw [hd] at hde
            exact absurd hde (cellLtP_ne (cell_sort_compare_eq_true.mp h2))
          · exact ⟨d, hd, hde⟩
      · simp only [set_insert, h1, h2, Bool.false_eq_true, if_false]
        refine ⟨fun _ => ⟨y, List.mem_cons.mpr (Or.inl rfl), ?_⟩, fun _ => by simp⟩
        exact cellLtP_total (fun h => h2 (cell_sort_compare_eq_true.mpr h))
          (fun h => h1 (cell_sort_compare_eq_true.mpr h))

/-- The cell record each public add overload builds for its payload. -/
def kind_cell (r : integerref_t) (k : AddKind) (idx : Nat) : cell_t :=
  match k with
  | AddKind.number v => ⟨r, CellType.NUMBER, idx, some v, ""⟩
  | AddKind.formula f => ⟨r, CellType.FORMULA, idx, none, f⟩
  | AddKind.strval v => ⟨r, CellType.STRING, idx, none, v⟩

theorem kind_cell_ref (r : integerref_t) (k : AddKind) (idx : Nat) :
    (kind_cell r k idx).integerref = r := by
  cases k <;> rfl

/-- The grid bounds every add overload checks first. -/
def ref_in_bounds (r : integerref_t) : Prop :=
  1 ≤ r.row ∧ r.row ≤ MAX_ROW ∧ 1 ≤ r.col ∧ r.col ≤ MAX_COL

/-- Some cell of the list already sits at the given reference. -/
def occupies (cells : List cell_t) (r : integerref_t) : Prop :=
  ∃ d ∈ cells, d.integerref = r

instance cellLtP_decidable : DecidableRel cellLtP :=
  fun a b => decidable_of_iff (cell_sort_compare a b = true) cell_sort_compare_eq_true

instance occupies_decidable (cells : List cell_t) (r : integerref_t) :
    Decidable (occupies cells r) := by
  unfold occupies
  infer_instance

instance ref_in_bounds_decidable (r : integerref_t) : Decidable (ref_in_bounds r) := by
  unfold ref_in_bounds
  infer_instance

instance payload_ok_decidable (k : AddKind) : Decidable (payload_ok k) := by
  cases k <;> simp only [payload_ok] <;> infer_instance

theorem add_cell_eq (env : SheetEnv) (r : integerref_t) (k : AddKind) (st : cell_style_t)
    (hb : ref_in_bounds r) (hk : payload_ok k) :
    add_cell env r k st =
      (if (set_insert cell_sort_compare (kind_cell r k (addStyle env.styles st).1)
            env.sheet.cells).1 = false then
        ({env with styles := (addStyle env.styles st).2}, Except.error (dup_mesg k))
      else
        ({styles := (addStyle env.styles st).2,
          sheet :=
            {env.sheet with
              cells := (set_insert cell_sort_compare
                (kind_cell r k (addStyle env.styles st).1) env.sheet.cells).2,
              used_columns := (set_insert nat_lt_compare r.col env.sheet.used_columns).2}},
          Except.ok ())) := by
  obtain ⟨hb1, hb2, hb3, hb4⟩ := hb
  cases k with
  | number v =>
    show add_number_cell env r v st = _
    unfold add_number_cell
    rw [if_neg (by simp only [MAX_COL, MAX_ROW] at *; omega)]
    rfl
  | formula f =>
    show add_formula_cell env r f st = _
    unfold add_formula_cell
    simp only [payload_ok, MAX_FORMULA_LEN] at hk
    rw [if_neg (by simp only [MAX_COL, MAX_ROW] at *; omega),
      if_neg (by simp only [MAX_FORMULA_LEN]; omega)]
    rfl
  | strval v =>
    show add_string_cell env r v st = _
    unfold add_string_cell
    simp only [payload_ok, MAX_STRING_LEN, MAX_STRING_LINE_BREAKS] at hk
    rw [if_neg (by simp only [MAX_COL, MAX_ROW] at *; omega),
      if_neg (by simp only [MAX_STRING_LEN]; omega),
      if_neg (by simp only [MAX_STRING_LINE_BREAKS]; omega)]
    rfl

theorem add_cell_ok (env : SheetEnv) (r : integerref_t) (k : AddKind) (st : cell_style_t)
    (hb : ref_in_bounds r) (hk : payload_ok k) (hsort : env.sheet.cells.Pairwise cellLtP)
    (hfree : ¬occupies env.sheet.cells r) :
    add_cell env r k st =
      ({styles := (addStyle env.styles st).2,
        sheet :=
          {env.sheet with
            cells := (set_insert cell_sort_compare
              (kind_cell r k (addStyle env.styles st).1) env.sheet.cells).2,
            used_columns := (set_insert nat_lt_compare r.col env.sheet.used_columns).2}},
        Except.ok ()) := by
  rw [add_cell_eq env r k st hb hk]
  rw [if_neg ?_]
  intro hfl
  rcases (set_insert_cells_flag _ _ hsort).mp hfl with ⟨d, hd, hde⟩
  exact hfree ⟨d, hd, by rw [hde, kind_cell_ref]⟩

theorem add_cell_dup (env : SheetEnv) (r : integerref_t) (k : AddKind) (st : cell_style_t)
    (hb : ref_in_bounds r) (hk : payload_ok k) (hsort : env.sheet.cells.Pairwise cellLtP)
    (hocc : occupies env.sheet.cells r) :
    add_cell env r k st =
      ({env with styles := (addStyle env.styles st).2}, Except.error (dup_mesg k)) := by
  rw [add_cell_eq env r k st hb hk]
  rw [if_pos ?_]
  rcases hocc with ⟨d, hd, hde⟩
  exact (set_insert_cells_flag _ _ hsort).mpr ⟨d, hd, by rw [hde, kind_cell_ref]⟩

theorem findIdx_not_mem (styles : List cell_style_t) (st : cell_style_t)
    (h : st ∉ styles) : ∀ i, List.findIdx? (fun s => decide (s = st)) styles i = none := by
  induction styles with
  | nil => intro i; rfl
  | cons x xs ih =>
    intro i
    have hx : ¬(x = st) := fun he => h (by simp [he])
    rw [List.findIdx?_cons, if_neg (by simp [hx])]
    exact ih (fun hm => h (by simp [hm])) (i + 1)

theorem findIdx_append_self (styles : List cell_style_t) (st : cell_style_t)
    (h : st ∉ styles) : ∀ i,
    List.findIdx? (fun s => decide (s = st)) (styles ++ [st]) i = some (styles.length + i) := by
  induction styles with
  | nil =>
    intro i
    show List.findIdx? (fun s => decide (s = st)) (st :: []) i = some (List.length [] + i)
    rw [List.findIdx?_cons, if_pos (by simp)]
    simp
  | cons x xs ih =>
    intro i
    have hx : ¬(x = st) := fun he => h (by simp [he])
    show List.findIdx? (fun s => decide (s = st)) (x :: (xs ++ [st])) i = _
    rw [List.findIdx?_cons, if_neg (by simp [hx])]
    rw [ih (fun hm => h (by simp [hm])) (i + 1)]
    congr 1
    simp only [List.length_cons]
    omega

theorem addStyle_grow (styles : List cell_style_t) (st : cell_style_t) (h : st ∉ styles) :
    (addStyle styles st).2.length = styles.length + 1 := by
  unfold addStyle
  rw [findIdx_not_mem styles st h 0]
  simp

theorem findIdx_none_not_mem (styles : List cell_style_t) (st : cell_style_t) :
    ∀ i, List.findIdx? (fun s => decide (s = st)) styles i = none → st ∉ styles := by
  induction styles with
  | nil => intro i _ hm; simp at hm
  | cons x xs ih =>
    intro i hf hm
    rw [List.findIdx?_cons] at hf
    by_cases hx : x = st
    · rw [if_pos (by simp [hx])] at hf
      exact Option.noConfusion hf
    · rw [if_neg (by simp [hx])] at hf
      rcases List.mem_cons.mp hm with hm | hm
      · exact hx hm.symm
      · exact ih (i + 1) hf hm

theorem addStyle_self (styles : List cell_style_t) (st : cell_style_t) :
    addStyle (addStyle styles st).2 st = ((addStyle styles st).1, (addStyle styles st).2) := by
  cases hf : styles.findIdx? (fun s => decide (s = st)) with
  | some i => simp [addStyle, hf]
  | none =>
    have hnm : st ∉ styles := findIdx_none_not_mem styles st 0 hf
    unfold addStyle
    rw [hf]
    dsimp only
    rw [findIdx_append_self styles st hnm 0]
    simp

/-- C5: on a sorted sheet with the reference unoccupied, the first add at an
in-bounds reference succeeds for any valid payload kind, a second add at the
same reference fails with that overload's duplicate-cell exception whatever
its kind, and the cell list still carries at most one cell per reference. -/
theorem C5_duplicate_cell (env : SheetEnv) (r : integerref_t) (k₁ k₂ : AddKind)
    (s₁ s₂ : cell_style_t) (hb : ref_in_bounds r) (h1 : payload_ok k₁) (h2 : payload_ok k₂)
    (hfree : ¬occupies env.sheet.cells r) (hsort : env.sheet.cells.Pairwise cellLtP) :
    (add_cell env r k₁ s₁).2 = Except.ok () ∧
    (add_cell (add_cell env r k₁ s₁).1 r k₂ s₂).2 = Except.error (dup_mesg k₂) ∧
    ((add_cell (add_cell env r k₁ s₁).1 r k₂ s₂).1.sheet.cells.map
      (fun c => c.integerref)).Nodup := by
  have e1 := add_cell_ok env r k₁ s₁ hb h1 hsort hfree
  have hsort₁ : ((set_insert cell_sort_compare (kind_cell r k₁ (addStyle env.styles s₁).1)
      env.sheet.cells).2).Pairwise cellLtP := set_insert_cells_pairwise _ _ hsort
  have hflag₁ : (set_insert cell_sort_compare (kind_cell r k₁ (addStyle env.styles s₁).1)
      env.sheet.cells).1 = true := by
    cases hfl : (set_insert cell_sort_compare (kind_cell r k₁ (addStyle env.styles s₁).1)
        env.sheet.cells).1 with
    | true => rfl
    | false =>
      rcases (set_insert_cells_flag _ _ hsort).mp hfl with ⟨d, hd, hde⟩
      exact absurd ⟨d, hd, by rw [hde, kind_cell_ref]⟩ hfree
  have hocc₁ : occupies ((set_insert cell_sort_compare
      (kind_cell r k₁ (addStyle env.styles s₁).1) env.sheet.cells).2) r :=
    ⟨_, set_insert_cells_mem _ _ hflag₁, kind_cell_ref _ _ _⟩
  have e2 := add_cell_dup
    ({styles := (addStyle env.styles s₁).2,
      sheet :=
        {env.sheet with
          cells := (set_insert cell_sort_compare
            (kind_cell r k₁ (addStyle env.styles s₁).1) env.sheet.cells).2,
          used_columns := (set_insert nat_lt_compare r.col env.sheet.used_columns).2}})
    r k₂ s₂ hb h2 hsort₁ hocc₁
  refine ⟨by rw [e1], by rw [e1, e2], ?_⟩
  rw [e1, e2]
  show ((set_insert cell_sort_compare (kind_cell r k₁ (addStyle env.styles s₁).1)
      env.sheet.cells).2.map (fun c => c.integerref)).Nodup
  unfold List.Nodup
  rw [List.pairwise_map]
  exact hsort₁.imp (fun h => cellLtP_ne h)

/-- A fresh one-sheet environment with an empty style catalog, used as the
concrete input of several witnesses. -/
def demo_env : SheetEnv := ⟨[], Sheet.fresh "Sheet1" "xl/worksheets/sheet1.xml" 1 "rId2"⟩

/-- Witness for C5: a number cell then a string cell at A1 of a fresh sheet. -/
theorem C5_duplicate_cell_witness :
    (ref_in_bounds ⟨1, 1⟩ ∧ payload_ok (AddKind.number 5) ∧ payload_ok (AddKind.strval "x") ∧
      ¬occupies demo_env.sheet.cells ⟨1, 1⟩ ∧ demo_env.sheet.cells.Pairwise cellLtP) ∧
    ((add_cell demo_env ⟨1, 1⟩ (AddKind.number 5) generic_style).2 = Except.ok () ∧
      (add_cell (add_cell demo_env ⟨1, 1⟩ (AddKind.number 5) generic_style).1 ⟨1, 1⟩
        (AddKind.strval "x") generic_string_style).2 =
          Except.error (dup_mesg (AddKind.strval "x")) ∧
      ((add_cell (add_cell demo_env ⟨1, 1⟩ (AddKind.number 5) generic_style).1 ⟨1, 1⟩
        (AddKind.strval "x") generic_string_style).1.sheet.cells.map
          (fun c => c.integerref)).Nodup) :=
  ⟨⟨by decide, by decide, by decide, by decide, by decide⟩,
    C5_duplicate_cell demo_env ⟨1, 1⟩ (AddKind.number 5) (AddKind.strval "x") generic_style
      generic_string_style (by decide) (by decide) (by decide) (by decide) (by decide)⟩

/-- C10: a duplicate-cell failure leaves the sheet (cells, used columns,
merges, width and height overrides) untouched, but the style argument has
already been resolved in the workbook catalog, which therefore holds the
addStyle result and has grown by one entry whenever the style was new. -/
theorem C10_duplicate_add_style_growth (env : SheetEnv) (r : integerref_t) (k : AddKind)
    (st : cell_style_t) (hb : ref_in_bounds r) (hk : payload_ok k)
    (hsort : env.sheet.cells.Pairwise cellLtP) (hocc : occupies env.sheet.cells r) :
    (add_cell env r k st).2 = Except.error (dup_mesg k) ∧
    (add_cell env r k st).1.sheet = env.sheet ∧
    (add_cell env r k st).1.styles = (addStyle env.styles st).2 ∧
    (st ∉ env.styles → (add_cell env r k st).1.styles.length = env.styles.length + 1) := by
  have e := add_cell_dup env r k st hb hk hsort hocc
  exact ⟨by rw [e], by rw [e], by rw [e],
    fun hnm => by rw [e]; exact addStyle_grow env.styles st hnm⟩

/-- Witness for C10: a second add at an occupied A1 with a new style. -/
theorem C10_duplicate_add_style_growth_witness :
    (ref_in_bounds ⟨1, 1⟩ ∧ payload_ok (AddKind.formula "A2+A3") ∧
      ((add_cell demo_env ⟨1, 1⟩ (AddKind.number 5) generic_style).1.sheet.cells.Pairwise
        cellLtP) ∧
      occupies (add_cell demo_env ⟨1, 1⟩ (AddKind.number 5) generic_style).1.sheet.cells
        ⟨1, 1⟩) ∧
    ((add_cell (add_cell demo_env ⟨1, 1⟩ (AddKind.number 5) generic_style).1 ⟨1, 1⟩
        (AddKind.formula "A2+A3") generic_string_style).2 =
      Except.error (dup_mesg (AddKind.formula "A2+A3")) ∧
      (add_cell (add_cell demo_env ⟨1, 1⟩ (AddKind.number 5) generic_style).1 ⟨1, 1⟩
        (AddKind.formula "A2+A3") generic_string_style).1.sheet =
          (add_cell demo_env ⟨1, 1⟩ (AddKind.number 5) generic_style).1.sheet ∧
      (add_cell (add_cell demo_env ⟨1, 1⟩ (AddKind.number 5) generic_style).1 ⟨1, 1⟩
        (AddKind.formula "A2+A3") generic_string_style).1.styles =
        (addStyle (add_cell demo_env ⟨1, 1⟩ (AddKind.number 5) generic_style).1.styles
          generic_string_style).2 ∧
      (generic_string_style ∉
          (add_cell demo_env ⟨1, 1⟩ (AddKind.number 5) generic_style).1.styles →
        (add_cell (add_cell demo_env ⟨1, 1⟩ (AddKind.number 5) generic_style).1 ⟨1, 1⟩
          (AddKind.formula "A2+A3") generic_string_style).1.styles.length =
          (add_cell demo_env ⟨1, 1⟩ (AddKind.number 5) generic_style).1.styles.length + 1)) :=
  ⟨⟨by decide, by decide, by decide, by decide⟩,
    C10_duplicate_add_style_growth
      (add_cell demo_env ⟨1, 1⟩ (AddKind.number 5) generic_style).1 ⟨1, 1⟩
      (AddKind.formula "A2+A3") generic_string_style
      (by decide) (by decide) (by decide) (by decide)⟩

theorem add_empty_cell_ok (env : SheetEnv) (r : integerref_t) (st : cell_style_t)
    (hb : ref_in_bounds r) (hsort : env.sheet.cells.Pairwise cellLtP)
    (hfree : ¬occupies env.sheet.cells r) :
    add_empty_cell env r st =
      ({styles := (addStyle env.styles st).2,
        sheet :=
          {env.sheet with
            cells := (set_insert cell_sort_compare
              (⟨r, CellType.EMPTY, (addStyle env.styles st).1, none, ""⟩ : cell_t)
              env.sheet.cells).2,
            used_columns := (set_insert nat_lt_compare r.col env.sheet.used_columns).2}},
        Except.ok ()) := by
  obtain ⟨hb1, hb2, hb3, hb4⟩ := hb
  unfold add_empty_cell
  rw [if_neg (by simp only [MAX_COL, MAX_ROW] at *; omega)]
  dsimp only
  rw [if_neg ?_]
  intro hfl
  rcases (set_insert_cells_flag _ _ hsort).mp hfl with ⟨d, hd, hde⟩
  exact hfree ⟨d, hd, hde⟩

/-- C3: on a fresh sheet (any identity, any starting style catalog), merging
A1:B2 with a string value succeeds and produces exactly one STRING cell at
A1 holding the value, EMPTY cells at A2, B1 and B2, all four carrying the
same style index, used columns 1 and 2, and exactly the single merge region
A1:B2; no width or height overrides appear. -/
theorem C3_merged_string_cell (styles : List cell_style_t) (nm fn rid : String) (sid : Nat)
    (value : String) (st : cell_style_t)
    (hlen : value.length ≤ MAX_STRING_LEN)
    (hbr : value.data.count '\n' ≤ MAX_STRING_LINE_BREAKS) :
    add_merged_string_cell ⟨styles, Sheet.fresh nm fn sid rid⟩ ⟨1, 1⟩ ⟨2, 2⟩ value st =
      (⟨(addStyle styles st).2,
        ⟨nm, fn, sid, rid,
         [⟨⟨1, 1⟩, CellType.STRING, (addStyle styles st).1, none, value⟩,
          ⟨⟨1, 2⟩, CellType.EMPTY, (addStyle styles st).1, none, ""⟩,
          ⟨⟨2, 1⟩, CellType.EMPTY, (addStyle styles st).1, none, ""⟩,
          ⟨⟨2, 2⟩, CellType.EMPTY, (addStyle styles st).1, none, ""⟩],
         [1, 2],
         [⟨⟨1, 1⟩, ⟨2, 2⟩⟩], [], []⟩⟩,
        Except.ok ()) := by
  obtain ⟨i, styles₂, e0, eSelf⟩ :
      ∃ i s₂, addStyle styles st = (i, s₂) ∧ addStyle s₂ st = (i, s₂) :=
    ⟨(addStyle styles st).1, (addStyle styles st).2, rfl, addStyle_self styles st⟩
  rw [e0]
  dsimp only [Sheet.fresh]
  unfold add_merged_string_cell
  rw [if_neg (by decide), if_neg (by decide), if_neg (by decide)]
  rw [show add_string_cell ⟨styles, ⟨nm, fn, sid, rid, [], [], [], [], []⟩⟩ ⟨1, 1⟩ value st
        = add_cell ⟨styles, ⟨nm, fn, sid, rid, [], [], [], [], []⟩⟩ ⟨1, 1⟩
            (AddKind.strval value) st
      from rfl]
  rw [add_cell_ok ⟨styles, ⟨nm, fn, sid, rid, [], [], [], [], []⟩⟩ ⟨1, 1⟩
    (AddKind.strval value) st (by decide) ⟨hlen, hbr⟩ List.Pairwise.nil
    (by rintro ⟨d, hd, _⟩; simp at hd)]
  dsimp only [Sheet.fresh]
  rw [e0]
  dsimp only [Sheet.fresh]
  rw [show (merge_refs ⟨1, 1⟩ ⟨2, 2⟩) = ([⟨1, 2⟩, ⟨2, 1⟩, ⟨2, 2⟩] : List integerref_t)
    from by decide]
  rw [show (set_insert cell_sort_compare
        (kind_cell ⟨1, 1⟩ (AddKind.strval value) i) []).2
      = [⟨⟨1, 1⟩, CellType.STRING, i, none, value⟩] from rfl]
  unfold add_empty_cells
  rw [add_empty_cell_ok _ ⟨1, 2⟩ st (by decide)
    (by simp [cellLtP]) (by rintro ⟨d, hd, hde⟩; simp at hd; rw [hd] at hde; simp at hde)]
  dsimp only [Sheet.fresh]
  rw [eSelf]
  dsimp only [Sheet.fresh]
  rw [show (set_insert cell_sort_compare
        (⟨⟨1, 2⟩, CellType.EMPTY, i, none, ""⟩ : cell_t)
        [⟨⟨1, 1⟩, CellType.STRING, i, none, value⟩]).2
      = [⟨⟨1, 1⟩, CellType.STRING, i, none, value⟩,
         ⟨⟨1, 2⟩, CellType.EMPTY, i, none, ""⟩] from rfl]
  unfold add_empty_cells
  rw [add_empty_cell_ok _ ⟨2, 1⟩ st (by decide)
    (by simp [cellLtP]) (by rintro ⟨d, hd, hde⟩; simp at hd; rcases hd with hd | hd <;>
      (rw [hd] at hde; simp at hde))]
  dsimp only [Sheet.fresh]
  rw [eSelf]
  dsimp only [Sheet.fresh]
  rw [show (set_insert cell_sort_compare
        (⟨⟨2, 1⟩, CellType.EMPTY, i, none, ""⟩ : cell_t)
        [⟨⟨1, 1⟩, CellType.STRING, i, none, value⟩,
         ⟨⟨1, 2⟩, CellType.EMPTY, i, none, ""⟩]).2
      = [⟨⟨1, 1⟩, CellType.STRING, i, none, value⟩,
         ⟨⟨1, 2⟩, CellType.EMPTY, i, none, ""⟩,
         ⟨⟨2, 1⟩, CellType.EMPTY, i, none, ""⟩] from rfl]
  unfold add_empty_cells
  rw [add_empty_cell_ok _ ⟨2, 2⟩ st (by decide)
    (by simp [cellLtP]) (by rintro ⟨d, hd, hde⟩; simp at hd; rcases hd with hd | hd | hd <;>
      (rw [hd] at hde; simp at hde))]
  dsimp only [Sheet.fresh]
  rw [eSelf]
  dsimp only [Sheet.fresh]
  unfold add_empty_cells
  rfl

/-- Witness for C3: a concrete merged string cell on a fresh sheet. -/
theorem C3_merged_string_cell_witness :
    (("hello" : String).length ≤ MAX_STRING_LEN ∧
      ("hello" : String).data.count '\n' ≤ MAX_STRING_LINE_BREAKS) ∧
    add_merged_string_cell ⟨[], Sheet.fresh "Sheet1" "xl/worksheets/sheet1.xml" 1 "rId2"⟩
        ⟨1, 1⟩ ⟨2, 2⟩ "hello" generic_string_style =
      (⟨(addStyle [] generic_string_style).2,
        ⟨"Sheet1", "xl/worksheets/sheet1.xml", 1, "rId2",
         [⟨⟨1, 1⟩, CellType.STRING, (addStyle [] generic_string_style).1, none, "hello"⟩,
          ⟨⟨1, 2⟩, CellType.EMPTY, (addStyle [] generic_string_style).1, none, ""⟩,
          ⟨⟨2, 1⟩, CellType.EMPTY, (addStyle [] generic_string_style).1, none, ""⟩,
          ⟨⟨2, 2⟩, CellType.EMPTY, (addStyle [] generic_string_style).1, none, ""⟩],
         [1, 2],
         [⟨⟨1, 1⟩, ⟨2, 2⟩⟩], [], []⟩⟩,
        Except.ok ()) :=
  ⟨by decide, C3_merged_string_cell [] "Sheet1" "xl/worksheets/sheet1.xml" "rId2" 1 "hello"
    generic_string_style (by decide) (by decide)⟩

deriving instance DecidableEq for Except

/-- C7 (amended): every merged-cell add rejects the region with the
invalid-merge exception exactly when the source's condition holds: the end
reference is left of, above, or identical to the start (end.col < start.col,
or end.row < start.row, or end == start); the state is returned unchanged, so
no cell and no merge region is added.  A region with end.row = start.row and
end.col > start.col (a one-row merge), or the one-column analogue, is
accepted, contrary to the claim's strictly-below-and-right requirement. -/
theorem C7_invalid_merge (env : SheetEnv) (s e : integerref_t) (value formula : String)
    (number : Rat) (st : cell_style_t) (hbs : ref_in_bounds s) (hbe : ref_in_bounds e)
    (hcond : s.col > e.col ∨ s.row > e.row ∨ (s.col = e.col ∧ s.row = e.row)) :
    add_merged_string_cell env s e value st =
      (env, Except.error "add_merged_string_cell() received an ending cell reference equal or prior to its starting cell reference.") ∧
    add_merged_formula_cell env s e formula st =
      (env, Except.error "add_merged_formula_cell() received an ending cell reference equal or prior to its starting cell reference.") ∧
    add_merged_number_cell env s e number st =
      (env, Except.error "add_merged_number_cell() received an ending cell reference equal or prior to its starting cell reference.") := by
  obtain ⟨h1, h2, h3, h4⟩ := hbs
  obtain ⟨h5, h6, h7, h8⟩ := hbe
  refine ⟨?_, ?_, ?_⟩
  · unfold add_merged_string_cell
    rw [if_neg (by simp only [MAX_COL, MAX_ROW] at *; omega),
      if_neg (by simp only [MAX_COL, MAX_ROW] at *; omega), if_pos hcond]
  · unfold add_merged_formula_cell
    rw [if_neg (by simp only [MAX_COL, MAX_ROW] at *; omega),
      if_neg (by simp only [MAX_COL, MAX_ROW] at *; omega), if_pos hcond]
  · unfold add_merged_number_cell
    rw [if_neg (by simp only [MAX_COL, MAX_ROW] at *; omega),
      if_neg (by simp only [MAX_COL, MAX_ROW] at *; omega), if_pos hcond]

/-- Counterexample for C7 as stated: for A1:B1 the end is not strictly
below-and-right of the start (the rows are equal), yet the merged string add
succeeds instead of failing with the invalid-merge error. -/
theorem C7_counterexample :
    ¬((⟨1, 2⟩ : integerref_t).row > (⟨1, 1⟩ : integerref_t).row ∧
      (⟨1, 2⟩ : integerref_t).col > (⟨1, 1⟩ : integerref_t).col) ∧
    (add_merged_string_cell demo_env ⟨1, 1⟩ ⟨1, 2⟩ "x" generic_string_style).2 =
      Except.ok () := by
  decide

/-- Witness for C7 (amended): the one-point region A1:A1 is rejected with the
state unchanged. -/
theorem C7_invalid_merge_witness :
    (ref_in_bounds ⟨1, 1⟩ ∧
      ((⟨1, 1⟩ : integerref_t).col > (⟨1, 1⟩ : integerref_t).col ∨
        (⟨1, 1⟩ : integerref_t).row > (⟨1, 1⟩ : integerref_t).row ∨
        ((⟨1, 1⟩ : integerref_t).col = (⟨1, 1⟩ : integerref_t).col ∧
          (⟨1, 1⟩ : integerref_t).row = (⟨1, 1⟩ : integerref_t).row))) ∧
    (add_merged_string_cell demo_env ⟨1, 1⟩ ⟨1, 1⟩ "x" generic_string_style =
      (demo_env, Except.error "add_merged_string_cell() received an ending cell reference equal or prior to its starting cell reference.") ∧
    add_merged_formula_cell demo_env ⟨1, 1⟩ ⟨1, 1⟩ "A2" generic_style =
      (demo_env, Except.error "add_merged_formula_cell() received an ending cell reference equal or prior to its starting cell reference.") ∧
    add_merged_number_cell demo_env ⟨1, 1⟩ ⟨1, 1⟩ 3 generic_style =
      (demo_env, Except.error "add_merged_number_cell() received an ending cell reference equal or prior to its starting cell reference.")) :=
  ⟨⟨by decide, by decide⟩,
    C7_invalid_merge demo_env ⟨1, 1⟩ ⟨1, 1⟩ "x" "A2" 3 generic_style
      (by decide) (by decide) (by decide)⟩

theorem width_insert_dup (p : Nat × Rat) : ∀ (l : List (Nat × Rat)),
    l.Pairwise (fun a b => a.1 < b.1) → (∃ q ∈ l, q.1 = p.1) →
    set_insert column_widths_sort_compare p l = (false, l) := by
  intro l
  induction l with
  | nil =>
    rintro _ ⟨q, hq, _⟩
    simp at hq
  | cons y ys ih =>
    rintro hs ⟨q, hq, hqe⟩
    rcases List.pairwise_cons.mp hs with ⟨hy, hys⟩
    by_cases hb1 : column_widths_sort_compare p y = true
    · exfalso
      have h1 : p.1 < y.1 := by simpa [column_widths_sort_compare] using hb1
      rcases List.mem_cons.mp hq with hq | hq
      · rw [hq] at hqe; omega
      · have := hy q hq; omega
    · by_cases hb2 : column_widths_sort_compare y p = true
      · have h2 : y.1 < p.1 := by simpa [column_widths_sort_compare] using hb2
        have hqys : q ∈ ys := by
          rcases List.mem_cons.mp hq with hq | hq
          · rw [hq] at hqe; omega
          · exact hq
        simp only [set_insert, hb1, hb2, if_true, Bool.false_eq_true, if_false]
        rw [ih hys ⟨q, hqys, hqe⟩]
      · simp only [set_insert, hb1, hb2, Bool.false_eq_true, if_false]

theorem width_insert_new (p : Nat × Rat) : ∀ (l : List (Nat × Rat)),
    l.Pairwise (fun a b => a.1 < b.1) → (∀ q ∈ l, q.1 ≠ p.1) →
    (set_insert column_widths_sort_compare p l).1 = true ∧
    (∀ q, q ∈ (set_insert column_widths_sort_compare p l).2 ↔ q = p ∨ q ∈ l) ∧
    ((set_insert column_widths_sort_compare p l).2).Pairwise (fun a b => a.1 < b.1) := by
  intro l
  induction l with
  | nil =>
    intro _ _
    refine ⟨rfl, fun q => ?_, by simp [set_insert]⟩
    simp [set_insert]
  | cons y ys ih =>
    intro hs hne
    rcases List.pairwise_cons.mp hs with ⟨hy, hys⟩
    by_cases hb1 : column_widths_sort_compare p y = true
    · have h1 : p.1 < y.1 := by simpa [column_widths_sort_compare] using hb1
      refine ⟨by simp [set_insert, hb1], fun q => by simp [set_insert, hb1, List.mem_cons], ?_⟩
      simp only [set_insert, hb1, if_true]
      refine List.pairwise_cons.mpr ⟨?_, hs⟩
      intro x hx
      rcases List.mem_cons.mp hx with hx | hx
      · rw [hx]; exact h1
      · have := hy x hx; omega
    · by_cases hb2 : column_widths_sort_compare y p = true
      · have h2 : y.1 < p.1 := by simpa [column_widths_sort_compare] using hb2
        obtain ⟨ihf, ihm, ihs⟩ := ih hys (fun q hq => hne q (by simp [hq]))
        refine ⟨?_, ?_, ?_⟩
        · simp only [set_insert, hb1, hb2, if_true, Bool.false_eq_true, if_false]
          exact ihf
        · intro q
          simp only [set_insert, hb1, hb2, if_true, Bool.false_eq_true, if_false,
            List.mem_cons]
          rw [ihm q]
          tauto
        · simp only [set_insert, hb1, hb2, if_true, Bool.false_eq_true, if_false]
          refine List.pairwise_cons.mpr ⟨?_, ihs⟩
          intro x hx
          rcases (ihm x).mp hx with hx | hx
          · rw [hx]; exact h2
          · exact hy x hx
      · exfalso
        have h1 : ¬(p.1 < y.1) := by simpa [column_widths_sort_compare] using hb1
        have h2 : ¬(y.1 < p.1) := by simpa [column_widths_sort_compare] using hb2
        exact hne y (by simp) (by omega)

/-- C6 (amended): set_column_width and set_row_height are FIRST-write-wins
per index: std::set::insert is a no-op on an existing key, so with two
in-range values applied to a fresh index the stored override is the first
value, the second call succeeds but changes nothing, and at most one
override per index is ever stored. -/
theorem C6_first_write_wins (sh : Sheet) (col row : Nat) (w₁ w₂ q₁ q₂ : Rat)
    (hcol : 1 ≤ col ∧ col ≤ MAX_COL) (hrow : 1 ≤ row ∧ row ≤ MAX_ROW)
    (hw₁ : MIN_COL_WIDTH ≤ w₁ ∧ w₁ ≤ MAX_COL_WIDTH)
    (hw₂ : MIN_COL_WIDTH ≤ w₂ ∧ w₂ ≤ MAX_COL_WIDTH)
    (hq₁ : MIN_ROW_HEIGHT ≤ q₁ ∧ q₁ ≤ MAX_ROW_HEIGHT)
    (hq₂ : MIN_ROW_HEIGHT ≤ q₂ ∧ q₂ ≤ MAX_ROW_HEIGHT)
    (hsw : sh.column_widths.Pairwise (fun a b => a.1 < b.1))
    (hfw : ∀ p ∈ sh.column_widths, p.1 ≠ col)
    (hsh : sh.row_heights.Pairwise (fun a b => a.1 < b.1))
    (hfh : ∀ p ∈ sh.row_heights, p.1 ≠ row) :
    (set_column_width sh col w₁).2 = Except.ok () ∧
    (set_column_width (set_column_width sh col w₁).1 col w₂).2 = Except.ok () ∧
    (set_column_width (set_column_width sh col w₁).1 col w₂).1.column_widths =
      (set_column_width sh col w₁).1.column_widths ∧
    (col, w₁) ∈ (set_column_width (set_column_width sh col w₁).1 col w₂).1.column_widths ∧
    ((set_column_width (set_column_width sh col w₁).1 col w₂).1.column_widths.map
      Prod.fst).Nodup ∧
    (set_row_height (set_row_height sh row q₁).1 row q₂).1.row_heights =
      (set_row_height sh row q₁).1.row_heights ∧
    (row, q₁) ∈ (set_row_height (set_row_height sh row q₁).1 row q₂).1.row_heights ∧
    ((set_row_height (set_row_height sh row q₁).1 row q₂).1.row_heights.map
      Prod.fst).Nodup := by
  obtain ⟨iw, imem, isort⟩ := width_insert_new (col, w₁) sh.column_widths hsw
    (fun q hq => hfw q hq)
  obtain ⟨ih1, ihmem, ihsort⟩ := width_insert_new (row, q₁) sh.row_heights hsh
    (fun q hq => hfh q hq)
  have e1 : set_column_width sh col w₁ =
      ({sh with column_widths :=
        (set_insert column_widths_sort_compare (col, w₁) sh.column_widths).2},
        Except.ok ()) := by
    unfold set_column_width
    rw [if_neg (by push_neg; exact hw₁), if_neg (by simp only [MAX_COL] at *; omega)]
  have hdupw : set_insert column_widths_sort_compare (col, w₂)
      (set_insert column_widths_sort_compare (col, w₁) sh.column_widths).2 =
      (false, (set_insert column_widths_sort_compare (col, w₁) sh.column_widths).2) :=
    width_insert_dup (col, w₂) _ isort ⟨(col, w₁), (imem _).mpr (Or.inl rfl), rfl⟩
  have e2 : set_column_width (set_column_width sh col w₁).1 col w₂ =
      ((set_column_width sh col w₁).1, Except.ok ()) := by
    rw [e1]
    unfold set_column_width
    rw [if_neg (by push_neg; exact hw₂), if_neg (by simp only [MAX_COL] at *; omega)]
    dsimp only
    rw [hdupw]
  have e3 : set_row_height sh row q₁ =
      ({sh with row_heights :=
        (set_insert row_heights_sort_compare (row, q₁) sh.row_heights).2},
        Except.ok ()) := by
    unfold set_row_height
    rw [if_neg (by push_neg; exact hq₁), if_neg (by simp only [MAX_ROW] at *; omega)]
  have hrwc : row_heights_sort_compare = column_widths_sort_compare := rfl
  have hduph : set_insert row_heights_sort_compare (row, q₂)
      (set_insert row_heights_sort_compare (row, q₁) sh.row_heights).2 =
      (false, (set_insert row_heights_sort_compare (row, q₁) sh.row_heights).2) := by
    rw [hrwc]
    exact width_insert_dup (row, q₂) _ ihsort ⟨(row, q₁), (ihmem _).mpr (Or.inl rfl), rfl⟩
  have e4 : set_row_height (set_row_height sh row q₁).1 row q₂ =
      ((set_row_height sh row q₁).1, Except.ok ()) := by
    rw [e3]
    unfold set_row_height
    rw [if_neg (by push_neg; exact hq₂), if_neg (by simp only [MAX_ROW] at *; omega)]
    dsimp only
    rw [hduph]
  refine ⟨by rw [e1], by rw [e2], by rw [e2], ?_, ?_, by rw [e4], ?_, ?_⟩
  · rw [e2, e1]
    exact (imem _).mpr (Or.inl rfl)
  · rw [e2, e1]
    show ((set_insert column_widths_sort_compare (col, w₁) sh.column_widths).2.map
      Prod.fst).Nodup
    unfold List.Nodup
    rw [List.pairwise_map]
    exact isort.imp (fun h => Nat.ne_of_lt h)
  · rw [e4, e3]
    show (row, q₁) ∈ (set_insert row_heights_sort_compare (row, q₁) sh.row_heights).2
    rw [hrwc]
    exact (ihmem _).mpr (Or.inl rfl)
  · rw [e4, e3]
    show ((set_insert row_heights_sort_compare (row, q₁) sh.row_heights).2.map
      Prod.fst).Nodup
    rw [hrwc]
    unfold List.Nodup
    rw [List.pairwise_map]
    exact ihsort.imp (fun h => Nat.ne_of_lt h)

/-- Counterexample for C6 as stated: setting column 1 to width 10 then 20 on
a fresh sheet leaves the override at 10, not at the last-written 20. -/
theorem C6_counterexample :
    (set_column_width
        (set_column_width (Sheet.fresh "Sheet1" "xl/worksheets/sheet1.xml" 1 "rId2") 1 10).1
        1 20).1.column_widths = [(1, 10)] ∧ ((10 : Rat) ≠ 20) := by
  decide

/-- Witness for C6 (amended) on a fresh sheet at column 1 and row 1. -/
theorem C6_first_write_wins_witness :
    ((1 ≤ 1 ∧ 1 ≤ MAX_COL) ∧ (1 ≤ 1 ∧ 1 ≤ MAX_ROW) ∧
      (MIN_COL_WIDTH ≤ (10 : Rat) ∧ (10 : Rat) ≤ MAX_COL_WIDTH) ∧
      (MIN_COL_WIDTH ≤ (20 : Rat) ∧ (20 : Rat) ≤ MAX_COL_WIDTH) ∧
      (MIN_ROW_HEIGHT ≤ (15 : Rat) ∧ (15 : Rat) ≤ MAX_ROW_HEIGHT) ∧
      (MIN_ROW_HEIGHT ≤ (25 : Rat) ∧ (25 : Rat) ≤ MAX_ROW_HEIGHT)) ∧
    ((set_column_width (Sheet.fresh "Sheet1" "xl/worksheets/sheet1.xml" 1 "rId2") 1 10).2 =
        Except.ok () ∧
      (set_column_width
        (set_column_width (Sheet.fresh "Sheet1" "xl/worksheets/sheet1.xml" 1 "rId2") 1 10).1
        1 20).2 = Except.ok () ∧
      (set_column_width
        (set_column_width (Sheet.fresh "Sheet1" "xl/worksheets/sheet1.xml" 1 "rId2") 1 10).1
        1 20).1.column_widths =
        (set_column_width (Sheet.fresh "Sheet1" "xl/worksheets/sheet1.xml" 1 "rId2") 1
          10).1.column_widths ∧
      (1, (10 : Rat)) ∈ (set_column_width
        (set_column_width (Sheet.fresh "Sheet1" "xl/worksheets/sheet1.xml" 1 "rId2") 1 10).1
        1 20).1.column_widths ∧
      ((set_column_width
        (set_column_width (Sheet.fresh "Sheet1" "xl/worksheets/sheet1.xml" 1 "rId2") 1 10).1
        1 20).1.column_widths.map Prod.fst).Nodup ∧
      (set_row_height
        (set_row_height (Sheet.fresh "Sheet1" "xl/worksheets/sheet1.xml" 1 "rId2") 1 15).1
        1 25).1.row_heights =
        (set_row_height (Sheet.fresh "Sheet1" "xl/worksheets/sheet1.xml" 1 "rId2") 1
          15).1.row_heights ∧
      (1, (15 : Rat)) ∈ (set_row_height
        (set_row_height (Sheet.fresh "Sheet1" "xl/worksheets/sheet1.xml" 1 "rId2") 1 15).1
        1 25).1.row_heights ∧
      ((set_row_height
        (set_row_height (Sheet.fresh "Sheet1" "xl/worksheets/sheet1.xml" 1 "rId2") 1 15).1
        1 25).1.row_heights.map Prod.fst).Nodup) :=
  ⟨⟨by decide, by decide, by decide, by decide, by decide, by decide⟩,
    C6_first_write_wins (Sheet.fresh "Sheet1" "xl/worksheets/sheet1.xml" 1 "rId2") 1 1
      10 20 15 25 (by decide) (by decide) (by decide) (by decide) (by decide) (by decide)
      (by decide) (by decide) (by decide) (by decide)⟩

/-- case_insensitive_same from BasicWorkbook.cpp: equal length and pointwise
equality after tolower. -/
def case_insensitive_same (a b : String) : Bool :=
  if a.data.length ≠ b.data.length then false
  else (a.data.zip b.data).all (fun p => c_tolower p.1 = c_tolower p.2)

end BasicWorkbook

namespace IttyZip

/-- NOT_OPENED_MESG from IttyZip.h. -/
def NOT_OPENED_MESG : String :=
  "IttyZip::addFile() or finalize() called either before the output file has been opened or after it has been closed."

/-- EMPTY_FINALIZE_MESG from IttyZip.h. -/
def EMPTY_FINALIZE_MESG : String :=
  "IttyZip::finalize() was called on an empty IttyZip object."

/-- UNEXPECTED_CLOSE_MESG from IttyZip.h. -/
def UNEXPECTED_CLOSE_MESG : String :=
  "IttyZip exception: The output file closed unexpectedly."

/-- OUTPUT_FAIL_MESG from IttyZip.h. -/
def OUTPUT_FAIL_MESG : String :=
  "IttyZip exception: The output stream failed."

/-- uint16_to_buffer from IttyZip.cpp (the full IttyZip.cpp text is included
in src/README.md after the README proper): little-endian bytes of a 16-bit
value, byte k being 0xFF AND (in right-shifted by 8k bits). -/
def uint16_to_buffer (n : Nat) : List Nat :=
  [n % 256, n / 256 % 256]

/-- uint32_to_buffer from IttyZip.cpp: little-endian bytes of a 32-bit
value. -/
def uint32_to_buffer (n : Nat) : List Nat :=
  [n % 256, n / 256 % 256, n / 65536 % 256, n / 16777216 % 256]

/-- The IttyZip class state from IttyZip.h, in member order: entry count,
the ofstream out_file (modelled by its is_open flag, its fail flag and the
bytes written so far, the output field), the opened flag, the running
offset, the buffered central directory bytes and the used entry names. -/
structure IttyZip where
  num_files : Nat
  out_file_is_open : Bool
  out_file_fail : Bool
  opened : Bool
  next_offset : Nat
  central_directory : List Nat
  filenames : List String
  output : List Nat
deriving DecidableEq, Repr

/-- endrecord_t from IttyZip.h: the fields of the end of central directory
record. -/
structure endrecord_t where
  signature : Nat
  disk_number : Nat
  dir_start_disk_number : Nat
  this_disk_entries : Nat
  total_entries : Nat
  central_dir_size : Nat
  central_dir_offset : Nat
  comment_length : Nat
deriving DecidableEq, Repr

/-- IttyZip::generateEndRecord from IttyZip.cpp: the signature constant,
both disk numbers zero, num_files as this-disk and total entry counts, the
central directory byte size cast to uint32, next_offset as the directory
start offset, and a zero comment length. -/
def generateEndRecord (z : IttyZip) : endrecord_t :=
  { signature := 0x06054b50,
    disk_number := 0,
    dir_start_disk_number := 0,
    this_disk_entries := z.num_files,
    total_entries := z.num_files,
    central_dir_size := z.central_directory.length % 4294967296,
    central_dir_offset := z.next_offset,
    comment_length := 0 }

/-- IttyZip::writeEndRecord from IttyZip.cpp: after the opened, is_open and
fail guards, appends the end record fields to the output bytes in order,
each serialized little endian at its declared width. -/
def writeEndRecord (z : IttyZip) (e : endrecord_t) : IttyZip × Except String Unit :=
  if z.opened = false then
    (z, Except.error NOT_OPENED_MESG)
  else if z.out_file_is_open = false then
    (z, Except.error UNEXPECTED_CLOSE_MESG)
  else if z.out_file_fail = true then
    (z, Except.error OUTPUT_FAIL_MESG)
  else
    ({z with output := z.output ++ uint32_to_buffer e.signature ++
        uint16_to_buffer e.disk_number ++ uint16_to_buffer e.dir_start_disk_number ++
        uint16_to_buffer e.this_disk_entries ++ uint16_to_buffer e.total_entries ++
        uint32_to_buffer e.central_dir_size ++ uint32_to_buffer e.central_dir_offset ++
        uint16_to_buffer e.comment_length}, Except.ok ())

/-- IttyZip::finalize from IttyZip.cpp: first the empty check
(num_files == 0 or next_offset == 0 or an empty central directory throws
EMPTY_FINALIZE_MESG), then the opened flag and the stream-state guards; on
success the buffered central directory is written to the output, the end
record generated and written, the file closed, and every member except
filenames reset. -/
def finalize (z : IttyZip) : IttyZip × Except String Unit :=
  if z.num_files = 0 ∨ z.next_offset = 0 ∨ z.central_directory = [] then
    (z, Except.error EMPTY_FINALIZE_MESG)
  else if z.opened = false then
    (z, Except.error NOT_OPENED_MESG)
  else if z.out_file_is_open = false then
    (z, Except.error UNEXPECTED_CLOSE_MESG)
  else if z.out_file_fail = true then
    (z, Except.error OUTPUT_FAIL_MESG)
  else
    match writeEndRecord {z with output := z.output ++ z.central_directory}
        (generateEndRecord z) with
    | (z2, Except.error e) => (z2, Except.error e)
    | (z2, Except.ok _) =>
      ({z2 with
          out_file_is_open := false,
          opened := false,
          next_offset := 0,
          central_directory := [],
          num_files := 0}, Except.ok ())

/-- C8: finalize on an open archive with zero added entries fails with the
empty-archive exception and returns the state unchanged — in particular the
output bytes are exactly what they were before the failed call. -/
theorem C8_empty_finalize (z : IttyZip) (hopen : z.opened = true)
    (hempty : z.num_files = 0) :
    finalize z = (z, Except.error EMPTY_FINALIZE_MESG) ∧
    (finalize z).1.output = z.output := by
  have h : finalize z = (z, Except.error EMPTY_FINALIZE_MESG) := by
    unfold finalize
    rw [if_pos (Or.inl hempty)]
  exact ⟨h, by rw [h]⟩

/-- Witness for C8: a freshly opened archive with no entries. -/
theorem C8_empty_finalize_witness :
    ((IttyZip.mk 0 true false true 0 [] [] []).opened = true ∧
      (IttyZip.mk 0 true false true 0 [] [] []).num_files = 0) ∧
    (finalize (IttyZip.mk 0 true false true 0 [] [] []) =
      (IttyZip.mk 0 true false true 0 [] [] [], Except.error EMPTY_FINALIZE_MESG) ∧
      (finalize (IttyZip.mk 0 true false true 0 [] [] [])).1.output =
        (IttyZip.mk 0 true false true 0 [] [] []).output) :=
  ⟨⟨by decide, by decide⟩,
    C8_empty_finalize (IttyZip.mk 0 true false true 0 [] [] []) (by decide) (by decide)⟩

end IttyZip

namespace BasicWorkbook

/-- BasicWorkbook.h Workbook data members: the ordered sheet list and the
deduplicated style catalog (the IttyZip member is driven only inside
publish, which is modelled as producing the ordered list of archive entry
names). -/
structure Workbook where
  sheets : List Sheet
  cell_styles : List cell_style_t
deriving Repr

/-- Workbook::addSheet from BasicWorkbook.cpp: empty-name and
case-insensitive duplicate-name checks, then ordinal sheetId, derived part
filename and relationship id. -/
def addSheet (wb : Workbook) (name : String) : Workbook × Except String Unit :=
  if name = "" then
    (wb, Except.error "addsheet() received an empty name for a new sheet.")
  else if wb.sheets.any (fun s => case_insensitive_same name s.name) then
    (wb, Except.error "addSheet() received a new sheet with the same name as an existing sheet.")
  else
    let sheetId := wb.sheets.length + 1
    ({wb with sheets := wb.sheets ++
      [Sheet.fresh name
        ("xl/worksheets/sheet" ++ String.mk (natToString sheetId) ++ ".xml")
        sheetId
        ("rId" ++ String.mk (natToString (sheetId + 1)))]},
      Except.ok ())

/-- The archive entry names of the seven fixed parts, in the order
Workbook::publish adds them: the content-types manifest, the package
relationships, the extended and core document properties, the
workbook-level relationships, the style catalog and the workbook
descriptor. -/
def FIXED_PART_NAMES : List String :=
  ["[Content_Types].xml", "_rels/.rels", "docProps/app.xml", "docProps/core.xml",
   "xl/_rels/workbook.xml.rels", "xl/styles.xml", "xl/workbook.xml"]

/-- Workbook::publish from BasicWorkbook.cpp, abstracted to the ordered list
of archive entry names it feeds to IttyZip::addFile (the rendered part
contents include a wall-clock timestamp and are not modelled): the no-sheet
and empty-filename guards, the seven fixed parts, then the per-sheet parts
taken with sheets.back()/pop_back — i.e. in reverse insertion order — after
which the sheet list is empty. -/
def publish (wb : Workbook) (filename : String) :
    Workbook × Except String (List String) :=
  if wb.sheets = [] then
    (wb, Except.error "publish() called, but Workbook has no Sheets.")
  else if filename = "" then
    (wb, Except.error "publish() called with empty filename.")
  else
    ({wb with sheets := []},
      Except.ok (FIXED_PART_NAMES ++ (wb.sheets.reverse.map (fun s => s.filename))))

/-- C9 (amended): publish succeeds on a non-empty workbook and a non-empty
filename, producing the archive entries in the order: the SEVEN fixed
metadata parts, then one part per sheet in reverse sheet-insertion order
(the most recently added sheet first, the first-added sheet as the last
archive entry); the sheet list is empty when publish returns. -/
theorem C9_publish_order (wb : Workbook) (filename : String)
    (hs : wb.sheets ≠ []) (hf : filename ≠ "") :
    (publish wb filename).2 =
      Except.ok (FIXED_PART_NAMES ++ (wb.sheets.reverse.map (fun s => s.filename))) ∧
    (publish wb filename).1.sheets = [] ∧
    FIXED_PART_NAMES.length = 7 := by
  unfold publish
  rw [if_neg hs, if_neg hf]
  exact ⟨rfl, rfl, rfl⟩

/-- Counterexample for C9 as stated: with one sheet, the entry at index 6
(the seventh, which under "six fixed metadata parts" would be the sheet
part) is the workbook descriptor, and the sheet part is the eighth entry:
there are seven fixed parts, not six. -/
theorem C9_counterexample :
    (publish ⟨[Sheet.fresh "Sheet1" "xl/worksheets/sheet1.xml" 1 "rId2"], []⟩ "a.xlsx").2 =
      Except.ok ["[Content_Types].xml", "_rels/.rels", "docProps/app.xml",
        "docProps/core.xml", "xl/_rels/workbook.xml.rels", "xl/styles.xml",
        "xl/workbook.xml", "xl/worksheets/sheet1.xml"] ∧
    ["[Content_Types].xml", "_rels/.rels", "docProps/app.xml", "docProps/core.xml",
      "xl/_rels/workbook.xml.rels", "xl/styles.xml", "xl/workbook.xml",
      "xl/worksheets/sheet1.xml"][6]? ≠ some "xl/worksheets/sheet1.xml" ∧
    ["[Content_Types].xml", "_rels/.rels", "docProps/app.xml", "docProps/core.xml",
      "xl/_rels/workbook.xml.rels", "xl/styles.xml", "xl/workbook.xml",
      "xl/worksheets/sheet1.xml"][7]? = some "xl/worksheets/sheet1.xml" := by
  refine ⟨?_, by decide, by decide⟩
  rfl

/-- Witness for C9 (amended): a workbook with two sheets publishes the seven
fixed parts then sheet2 then sheet1. -/
theorem C9_publish_order_witness :
    ((⟨[Sheet.fresh "A" "xl/worksheets/sheet1.xml" 1 "rId2",
        Sheet.fresh "B" "xl/worksheets/sheet2.xml" 2 "rId3"], []⟩ : Workbook).sheets ≠ [] ∧
      ("out.xlsx" : String) ≠ "") ∧
    ((publish ⟨[Sheet.fresh "A" "xl/worksheets/sheet1.xml" 1 "rId2",
        Sheet.fresh "B" "xl/worksheets/sheet2.xml" 2 "rId3"], []⟩ "out.xlsx").2 =
      Except.ok (FIXED_PART_NAMES ++
        (([Sheet.fresh "A" "xl/worksheets/sheet1.xml" 1 "rId2",
           Sheet.fresh "B" "xl/worksheets/sheet2.xml" 2 "rId3"].reverse).map
          (fun s => s.filename))) ∧
      (publish ⟨[Sheet.fresh "A" "xl/worksheets/sheet1.xml" 1 "rId2",
        Sheet.fresh "B" "xl/worksheets/sheet2.xml" 2 "rId3"], []⟩ "out.xlsx").1.sheets = [] ∧
      FIXED_PART_NAMES.length = 7) :=
  ⟨⟨by decide, by decide⟩,
    C9_publish_order ⟨[Sheet.fresh "A" "xl/worksheets/sheet1.xml" 1 "rId2",
      Sheet.fresh "B" "xl/worksheets/sheet2.xml" 2 "rId3"], []⟩ "out.xlsx"
      (by decide) (by decide)⟩

/-- The XML tokens the sheetData loop of Sheet::generate_file appends that
concern row structure: a row element being opened (with its row index), a
cell element (with its reference), and a row element being closed.  The
attribute text (row height, style index, payload) hangs off these tokens
and does not affect the claim. -/
inductive RowEvent where
  | rowOpen : Nat → RowEvent
  | cellRef : Nat → Nat → RowEvent
  | rowClose : RowEvent
deriving DecidableEq, Repr

/-- The cell loop of Sheet::generate_file: this_row starts at 0; a cell on a
greater row first closes the previous row element (if one is open, i.e.
this_row > 0) and opens a new one; every cell then emits its own element;
after the loop the final row element is closed. -/
def sd_go (this_row : Nat) : List cell_t → List RowEvent
  | [] => [RowEvent.rowClose]
  | c :: rest =>
    if c.integerref.row > this_row then
      (if this_row > 0 then [RowEvent.rowClose] else []) ++
        RowEvent.rowOpen c.integerref.row ::
        RowEvent.cellRef c.integerref.row c.integerref.col ::
        sd_go c.integerref.row rest
    else
      RowEvent.cellRef c.integerref.row c.integerref.col :: sd_go this_row rest

/-- The sheetData section of Sheet::generate_file: self-closing and empty
when the sheet has no cells, otherwise the loop above. -/
def sheetDataEvents (cells : List cell_t) : List RowEvent :=
  match cells with
  | [] => []
  | _ :: _ => sd_go 0 cells

theorem length_dropWhile_le {α : Type} (p : α → Bool) (l : List α) :
    (l.dropWhile p).length ≤ l.length := by
  induction l with
  | nil => simp [List.dropWhile]
  | cons x xs ih =>
    rw [List.dropWhile_cons]
    by_cases hx : p x = true
    · rw [if_pos hx]
      exact Nat.le_succ_of_le ih
    · rw [if_neg hx]

/-- Written from the specification text: cells grouped into maximal runs of
equal row index, each group carrying its row. -/
def rowGroups : List cell_t → List (Nat × List cell_t)
  | [] => []
  | c :: rest =>
    (c.integerref.row,
      c :: rest.takeWhile (fun x => x.integerref.row == c.integerref.row)) ::
    rowGroups (rest.dropWhile (fun x => x.integerref.row == c.integerref.row))
termination_by l => l.length
decreasing_by
  simp only [List.length_cons]
  exact Nat.lt_succ_of_le (length_dropWhile_le _ _)

/-- Written from the specification text: one row element per group — open
the row, emit its cells in order, close the row. -/
def rowBlock (g : Nat × List cell_t) : List RowEvent :=
  RowEvent.rowOpen g.1 ::
    (g.2.map (fun c => RowEvent.cellRef c.integerref.row c.integerref.col) ++
      [RowEvent.rowClose])

/-- Written from the specification text: the row-structure token stream the
spec demands — for each distinct row, one opened row element containing its
cells and then closed, rows in order. -/
def canonicalRowEvents (cells : List cell_t) : List RowEvent :=
  (rowGroups cells).bind rowBlock

theorem takeWhile_row {l : List cell_t} {r : Nat} {x : cell_t}
    (hx : x ∈ l.takeWhile (fun z => z.integerref.row == r)) : x.integerref.row = r := by
  induction l with
  | nil => simp [List.takeWhile] at hx
  | cons y ys ih =>
    rw [List.takeWhile_cons] at hx
    by_cases hy : (y.integerref.row == r) = true
    · rw [if_pos hy] at hx
      rcases List.mem_cons.mp hx with hx | hx
      · rw [hx]
        simpa using hy
      · exact ih hx
    · rw [if_neg hy] at hx
      simp at hx

theorem dropWhile_rows_gt {c : cell_t} : ∀ {rest : List cell_t},
    (c :: rest).Pairwise cellLtP →
    ∀ x ∈ rest.dropWhile (fun z => z.integerref.row == c.integerref.row),
      c.integerref.row < x.integerref.row := by
  intro rest
  induction rest with
  | nil => intro _ x hx; simp [List.dropWhile] at hx
  | cons y ys ih =>
    intro hs x hx
    rcases List.pairwise_cons.mp hs with ⟨hc, hys⟩
    rw [List.dropWhile_cons] at hx
    by_cases hy : (y.integerref.row == c.integerref.row) = true
    · rw [if_pos hy] at hx
      have hsub : (c :: ys).Sublist (c :: y :: ys) :=
        List.Sublist.cons₂ c (List.sublist_cons_self y ys)
      exact ih (hs.sublist hsub) x hx
    · rw [if_neg hy] at hx
      have hyr : y.integerref.row ≠ c.integerref.row := by
        intro he
        exact hy (by simpa using he)
      have hcy : c.integerref.row < y.integerref.row := by
        have := hc y (by simp)
        unfold cellLtP at this
        omega
      rcases List.mem_cons.mp hx with hx | hx
      · rw [hx]; exact hcy
      · have := (List.pairwise_cons.mp hys).1 x hx
        unfold cellLtP at this
        omega

theorem rowGroups_nil : rowGroups [] = [] := by
  rw [rowGroups]

theorem rowGroups_cons (c : cell_t) (rest : List cell_t) :
    rowGroups (c :: rest) =
      (c.integerref.row,
        c :: rest.takeWhile (fun x => x.integerref.row == c.integerref.row)) ::
      rowGroups (rest.dropWhile (fun x => x.integerref.row == c.integerref.row)) := by
  rw [rowGroups]

theorem canonical_nil : canonicalRowEvents [] = [] := by
  unfold canonicalRowEvents
  rw [rowGroups_nil]
  rfl

theorem bind_cons_eq {α β : Type} (f : α → List β) (x : α) (xs : List α) :
    (x :: xs).bind f = f x ++ xs.bind f := rfl

theorem canonical_cons (c : cell_t) (rest : List cell_t) :
    canonicalRowEvents (c :: rest) =
      (RowEvent.rowOpen c.integerref.row ::
        ((c :: rest.takeWhile (fun x => x.integerref.row == c.integerref.row)).map
          (fun x => RowEvent.cellRef x.integerref.row x.integerref.col) ++
         [RowEvent.rowClose])) ++
      canonicalRowEvents (rest.dropWhile (fun x => x.integerref.row == c.integerref.row)) := by
  unfold canonicalRowEvents
  rw [rowGroups_cons, bind_cons_eq]
  rfl

theorem takeWhile_sub {α : Type} (p : α → Bool) (l : List α) : (l.takeWhile p).Sublist l := by
  induction l with
  | nil => simp [List.takeWhile]
  | cons x xs ih =>
    rw [List.takeWhile_cons]
    by_cases hx : p x = true
    · rw [if_pos hx]
      exact List.Sublist.cons₂ x ih
    · rw [if_neg hx]
      exact List.nil_sublist _

theorem dropWhile_sub {α : Type} (p : α → Bool) (l : List α) : (l.dropWhile p).Sublist l := by
  induction l with
  | nil => simp [List.dropWhile]
  | cons x xs ih =>
    rw [List.dropWhile_cons]
    by_cases hx : p x = true
    · rw [if_pos hx]
      exact List.Sublist.cons x ih
    · rw [if_neg hx]

theorem takeWhile_append_dropWhile_eq {α : Type} (p : α → Bool) (l : List α) :
    l.takeWhile p ++ l.dropWhile p = l := by
  induction l with
  | nil => rfl
  | cons x xs ih =>
    rw [List.takeWhile_cons, List.dropWhile_cons]
    by_cases hx : p x = true
    · rw [if_pos hx, if_pos hx, List.cons_append, ih]
    · rw [if_neg hx, if_neg hx, List.nil_append]

theorem sd_go_spec : ∀ (cells : List cell_t) (tr : Nat), 0 < tr →
    cells.Pairwise cellLtP → (∀ c ∈ cells, tr ≤ c.integerref.row) →
    sd_go tr cells =
      (cells.takeWhile (fun x => x.integerref.row == tr)).map
        (fun x => RowEvent.cellRef x.integerref.row x.integerref.col) ++
      [RowEvent.rowClose] ++
      canonicalRowEvents (cells.dropWhile (fun x => x.integerref.row == tr)) := by
  intro cells
  induction cells with
  | nil =>
    intro tr _ _ _
    simp [sd_go, List.takeWhile, List.dropWhile, canonical_nil]
  | cons c rest ih =>
    intro tr htr hsort hge
    rcases List.pairwise_cons.mp hsort with ⟨hc, hrest⟩
    by_cases hr : c.integerref.row = tr
    · have hbeq : (c.integerref.row == tr) = true := by simp [hr]
      simp only [sd_go]
      rw [if_neg (by omega)]
      rw [List.takeWhile_cons, if_pos hbeq, List.dropWhile_cons, if_pos hbeq]
      rw [ih tr htr hrest (fun d hd => by
        have := hc d hd
        unfold cellLtP at this
        omega)]
      simp
    · have hgt : c.integerref.row > tr := by
        have := hge c (by simp)
        omega
      have hbeq : (c.integerref.row == tr) = false := by simp [hr]
      simp only [sd_go]
      rw [if_pos hgt, if_pos htr]
      rw [List.takeWhile_cons, if_neg (by simp [hbeq]), List.dropWhile_cons,
        if_neg (by simp [hbeq])]
      rw [canonical_cons]
      rw [ih c.integerref.row (by omega) hrest (fun d hd => by
        have := hc d hd
        unfold cellLtP at this
        omega)]
      simp

theorem sheetDataEvents_canonical (cells : List cell_t)
    (hsort : cells.Pairwise cellLtP) (hpos : ∀ c ∈ cells, 1 ≤ c.integerref.row) :
    sheetDataEvents cells = canonicalRowEvents cells := by
  cases cells with
  | nil => rw [canonical_nil]; rfl
  | cons c rest =>
    rcases List.pairwise_cons.mp hsort with ⟨hc, hrest⟩
    have hgt : c.integerref.row > 0 := hpos c (by simp)
    show sd_go 0 (c :: rest) = _
    simp only [sd_go]
    rw [if_pos hgt, if_neg (by omega)]
    rw [canonical_cons]
    rw [sd_go_spec rest c.integerref.row (by omega) hrest (fun d hd => by
      have := hc d hd
      unfold cellLtP at this
      omega)]
    simp

theorem rowGroups_props : ∀ (n : Nat) (cells : List cell_t), cells.length ≤ n →
    cells.Pairwise cellLtP →
    ((rowGroups cells).map Prod.fst).Pairwise (· < ·) ∧
    (∀ g ∈ rowGroups cells, g.2 ≠ [] ∧ (∀ x ∈ g.2, x.integerref.row = g.1) ∧
      g.2.Pairwise (fun a b => a.integerref.col < b.integerref.col)) ∧
    (∀ r, r ∈ (rowGroups cells).map Prod.fst ↔ ∃ x ∈ cells, x.integerref.row = r) := by
  intro n
  induction n with
  | zero =>
    intro cells hlen _
    have hnil : cells = [] := List.eq_nil_of_length_eq_zero (Nat.le_zero.mp hlen)
    subst hnil
    refine ⟨by rw [rowGroups_nil]; simp, by rw [rowGroups_nil]; simp, ?_⟩
    intro r
    rw [rowGroups_nil]
    simp
  | succ n ih =>
    intro cells hlen hsort
    cases cells with
    | nil =>
      refine ⟨by rw [rowGroups_nil]; simp, by rw [rowGroups_nil]; simp, ?_⟩
      intro r
      rw [rowGroups_nil]
      simp
    | cons c rest =>
      rcases List.pairwise_cons.mp hsort with ⟨hc, hrest⟩
      have hlen' : (rest.dropWhile
          (fun x => x.integerref.row == c.integerref.row)).length ≤ n := by
        have := length_dropWhile_le
          (fun x : cell_t => x.integerref.row == c.integerref.row) rest
        simp only [List.length_cons] at hlen
        omega
      have hsortdw : (rest.dropWhile
          (fun x => x.integerref.row == c.integerref.row)).Pairwise cellLtP :=
        hrest.sublist (dropWhile_sub _ _)
      obtain ⟨iha, ihb, ihc⟩ := ih _ hlen' hsortdw
      have hdwgt : ∀ x ∈ rest.dropWhile (fun z => z.integerref.row == c.integerref.row),
          c.integerref.row < x.integerref.row := dropWhile_rows_gt hsort
      rw [rowGroups_cons]
      refine ⟨?_, ?_, ?_⟩
      · rw [List.map_cons]
        refine List.pairwise_cons.mpr ⟨?_, iha⟩
        intro r hr
        rcases (ihc r).mp hr with ⟨x, hx, hxr⟩
        have := hdwgt x hx
        omega
      · intro g hg
        rcases List.mem_cons.mp hg with hg | hg
        · subst hg
          refine ⟨by simp, ?_, ?_⟩
          · intro x hx
            rcases List.mem_cons.mp hx with hx | hx
            · rw [hx]
            · exact takeWhile_row hx
          · have hpw : (c :: rest.takeWhile
                (fun x => x.integerref.row == c.integerref.row)).Pairwise cellLtP :=
              hsort.sublist (List.Sublist.cons₂ c (takeWhile_sub _ _))
            refine List.Pairwise.imp_of_mem ?_ hpw
            intro a b ha hb hab
            have hra : a.integerref.row = c.integerref.row := by
              rcases List.mem_cons.mp ha with ha | ha
              · rw [ha]
              · exact takeWhile_row ha
            have hrb : b.integerref.row = c.integerref.row := by
              rcases List.mem_cons.mp hb with hb | hb
              · rw [hb]
              · exact takeWhile_row hb
            unfold cellLtP at hab
            omega
        · exact ihb g hg
      · intro r
        rw [List.map_cons, List.mem_cons]
        constructor
        · rintro (hr | hr)
          · exact ⟨c, by simp, hr.symm⟩
          · rcases (ihc r).mp hr with ⟨x, hx, hxr⟩
            exact ⟨x, List.mem_cons.mpr (Or.inr ((dropWhile_sub _ _).mem hx)), hxr⟩
        · rintro ⟨x, hx, hxr⟩
          rcases List.mem_cons.mp hx with hx | hx
          · exact Or.inl (by rw [← hxr, hx])
          · have : x ∈ rest.takeWhile (fun z => z.integerref.row == c.integerref.row) ++
                rest.dropWhile (fun z => z.integerref.row == c.integerref.row) := by
              rw [takeWhile_append_dropWhile_eq]
              exact hx
            rcases List.mem_append.mp this with hx2 | hx2
            · exact Or.inl (by rw [← hxr, takeWhile_row hx2])
            · exact Or.inr ((ihc r).mpr ⟨x, hx2, hxr⟩)

theorem count_open_bind : ∀ (gs : List (Nat × List cell_t)) (r : Nat),
    (gs.bind rowBlock).count (RowEvent.rowOpen r) = (gs.map Prod.fst).count r := by
  intro gs r
  induction gs with
  | nil => rfl
  | cons g gs ih =>
    rw [bind_cons_eq, List.count_append, ih, List.map_cons]
    have hmap : RowEvent.rowOpen r ∉
        g.2.map (fun c => RowEvent.cellRef c.integerref.row c.integerref.col) := by
      intro hm
      rcases List.mem_map.mp hm with ⟨x, _, hx⟩
      exact RowEvent.noConfusion hx
    rw [show (rowBlock g).count (RowEvent.rowOpen r) = if g.1 = r then 1 else 0 from ?_]
    · rw [List.count_cons]
      by_cases hgr : g.1 = r
      · simp [hgr]
        omega
      · simp [hgr, Ne.symm hgr]
    · unfold rowBlock
      rw [List.count_cons, List.count_append, List.count_eq_zero.mpr hmap]
      by_cases hgr : g.1 = r
      · simp [hgr, List.count_singleton]
      · simp [hgr]

/-- C4: for every reachable cell list (strictly sorted by row then column,
rows at least 1 — the std::set invariant maintained by the add operations),
the sheetData token stream of Sheet::generate_file equals the canonical
grouped form demanded by the spec: per distinct row exactly one row element
(its open-token count is 1 for present rows and 0 otherwise, so no row is
ever reopened after closing), row elements in strictly increasing row order,
and each row's cells inside it in strictly increasing column order. -/
theorem C4_render_row_structure (cells : List cell_t)
    (hsort : cells.Pairwise cellLtP) (hpos : ∀ c ∈ cells, 1 ≤ c.integerref.row) :
    sheetDataEvents cells = canonicalRowEvents cells ∧
    ((rowGroups cells).map Prod.fst).Pairwise (· < ·) ∧
    (∀ g ∈ rowGroups cells, g.2 ≠ [] ∧ (∀ x ∈ g.2, x.integerref.row = g.1) ∧
      g.2.Pairwise (fun a b => a.integerref.col < b.integerref.col)) ∧
    (∀ r, r ∈ (rowGroups cells).map Prod.fst ↔ ∃ x ∈ cells, x.integerref.row = r) ∧
    (∀ r, (sheetDataEvents cells).count (RowEvent.rowOpen r) =
      if ∃ x ∈ cells, x.integerref.row = r then 1 else 0) := by
  obtain ⟨pa, pb, pc⟩ := rowGroups_props cells.length cells (Nat.le_refl _) hsort
  have hcanon := sheetDataEvents_canonical cells hsort hpos
  refine ⟨hcanon, pa, pb, pc, ?_⟩
  intro r
  rw [hcanon]
  unfold canonicalRowEvents
  rw [count_open_bind]
  have hnodup : ((rowGroups cells).map Prod.fst).Nodup :=
    pa.imp (fun h => Nat.ne_of_lt h)
  by_cases hm : ∃ x ∈ cells, x.integerref.row = r
  · rw [if_pos hm]
    exact List.count_eq_one_of_mem hnodup ((pc r).mpr hm)
  · rw [if_neg hm]
    exact List.count_eq_zero.mpr (fun hmm => hm ((pc r).mp hmm))

/-- A small sorted cell list (two rows) used as the C4 witness input. -/
def demo_cells : List cell_t :=
  [⟨⟨1, 1⟩, CellType.NUMBER, 0, some 1, ""⟩,
   ⟨⟨1, 3⟩, CellType.STRING, 0, none, "a"⟩,
   ⟨⟨2, 2⟩, CellType.EMPTY, 0, none, ""⟩]

/-- Witness for C4 at a concrete two-row cell list. -/
theorem C4_render_row_structure_witness :
    (demo_cells.Pairwise cellLtP ∧ ∀ c ∈ demo_cells, 1 ≤ c.integerref.row) ∧
    (sheetDataEvents demo_cells = canonicalRowEvents demo_cells ∧
      ((rowGroups demo_cells).map Prod.fst).Pairwise (· < ·) ∧
      (∀ g ∈ rowGroups demo_cells, g.2 ≠ [] ∧ (∀ x ∈ g.2, x.integerref.row = g.1) ∧
        g.2.Pairwise (fun a b => a.integerref.col < b.integerref.col)) ∧
      (∀ r, r ∈ (rowGroups demo_cells).map Prod.fst ↔
        ∃ x ∈ demo_cells, x.integerref.row = r) ∧
      (∀ r, (sheetDataEvents demo_cells).count (RowEvent.rowOpen r) =
        if ∃ x ∈ demo_cells, x.integerref.row = r then 1 else 0)) :=
  ⟨⟨by decide, by decide⟩,
    C4_render_row_structure demo_cells (by decide) (by decide)⟩
